import Mathlib

/-!
Verification development for the flashblocks-digestor repository.

The repository ingests "flashblock" updates, extracts protocol events
(UniswapV3, Aave, Chainlink, Morpho) from receipt logs via a bloom-filter
pre-check plus per-event ABI log decoders, and republishes each decoded
event to subscribers through one of three sink backends.

This file shallowly embeds the event-extraction pipeline
(crates/flashblocks-types/src/{univ3,aave,chainlink,morpho,flashblocks}.rs),
the per-protocol dispatch (src/protocols/{mod,univ3,chainlink}.rs) and the
sink send path (crates/streams/src/{print,websocket,sse,output}.rs), and
proves properties about the embedding.

Modelling conventions:
- 32-byte words (topics, hashes) are `Nat` values read big-endian; byte `i`
  of a word `h` is `h / 256 ^ (31 - i) % 256`.
- A log bloom (`alloy_primitives::Bloom`, 2048 bits) is modelled as the
  list of bit indices that are set; `contains_input(BloomInput::Hash(h))`
  checks that the three indices derived from the first six bytes of `h`
  (per `Bloom::m3_2048_hashed`) are all set.
- The compile-time event signature hashes (`<Event>::SIGNATURE_HASH`,
  keccak256 outputs generated by the `sol!` macro) are opaque 256-bit
  values; definitions take them as a bundled parameter `Sigs`, and
  theorems quantify over it, so nothing depends on the concrete digests.
- The alloy decoding entry points used by the repository
  (`SolEvent::decode_raw_log(topics, data, true)`, `LogData::new`,
  `SolEvent::decode_log_data(log, true)`) are embedded generically:
  topic decoding consumes the signature word plus one word per indexed
  parameter and ignores any extra topics (as `TopicList::detokenize`
  does), the signature word is compared against the signature hash, and
  the data payload is decoded as a static tuple: exact length
  `32 * #fields` and per-word canonical-form validation (validate = true).
- Rust `panic!` reachability is tracked with an explicit `PanicOr` result:
  slice indexing is embedded as a checked operation returning
  `PanicOr.panic` out of bounds, so panic-freedom is a provable statement.
-/

/-! ## Words, byte access and the log bloom -/

/-- Big-endian byte `i` (0-based, 0 ≤ i < 32) of a 256-bit word. -/
def byteAt (h i : Nat) : Nat := h / 256 ^ (31 - i) % 256

/-- The three bloom bit indices of a 32-byte hash input, as computed by
`alloy_primitives::Bloom::m3_2048_hashed`: for i in [0, 2, 4] the index is
`(hash[i] <<< 8 | hash[i+1]) &&& 0x7FF`. -/
def bloomBits (h : Nat) : List Nat :=
  [0, 2, 4].map (fun i => (byteAt h i * 256 + byteAt h (i + 1)) % 2048)

/-- A 2048-bit log bloom, modelled as the list of set bit indices. -/
abbrev Bloom : Type := List Nat

/-- Insert a 32-byte hash into a bloom (`Bloom::accrue(BloomInput::Hash(h))`):
set the three derived bit indices. -/
def Bloom.accrueHash (b : Bloom) (h : Nat) : Bloom := bloomBits h ++ b

/-- Insert a list of hashes into a bloom, left to right. -/
def Bloom.accrueMany (b : Bloom) (hs : List Nat) : Bloom :=
  hs.foldl Bloom.accrueHash b

/-- Membership test `Bloom::contains_input(BloomInput::Hash(h))`: all three
bit indices derived from `h` are set. -/
def Bloom.containsHash (b : Bloom) (h : Nat) : Bool :=
  (bloomBits h).all (fun i => List.contains b i)

/-! ## ABI value types and word validation -/

/-- The static ABI component types used by the events of this repository.
Every component is head-only (one 32-byte word). -/
inductive AbiType where
  | addr : AbiType
  | uintT (bits : Nat) : AbiType
  | intT (bits : Nat) : AbiType
  | boolT : AbiType
  | bytes32T : AbiType
deriving DecidableEq, Repr

/-- Canonical ABI type string of a component type. -/
def AbiType.canonicalString : AbiType → String
  | .addr => "address"
  | .uintT bits => "uint" ++ toString bits
  | .intT bits => "int" ++ toString bits
  | .boolT => "bool"
  | .bytes32T => "bytes32"

/-- Validity of a 32-byte word for a component type, as enforced by the
alloy decoder when `validate = true`: upper padding must be zero for
`address`/`uintN`/`bool`, and an `intN` word must be a canonical
sign-extension of an N-bit two's-complement value. -/
def AbiType.wordValid : AbiType → Nat → Bool
  | .addr, w => decide (w < 2 ^ 160)
  | .uintT bits, w => decide (w < 2 ^ bits)
  | .intT bits, w =>
      decide (w < 2 ^ (bits - 1)) ||
        (decide (2 ^ 256 - 2 ^ (bits - 1) ≤ w) && decide (w < 2 ^ 256))
  | .boolT, w => decide (w < 2)
  | .bytes32T, w => decide (w < 2 ^ 256)

/-- Detokenize an unsigned value from a word (truncating, as alloy's
`detokenize` does for `uintN`/`address`). -/
def wordUint (bits w : Nat) : Nat := w % 2 ^ bits

/-- Detokenize an `address` from a word: the low 20 bytes. -/
def wordAddr (w : Nat) : Nat := w % 2 ^ 160

/-- Detokenize a signed `intN` value from a word (two's complement of the
low N bits). -/
def wordInt (bits w : Nat) : Int :=
  let m := w % 2 ^ bits
  if m < 2 ^ (bits - 1) then (m : Int) else (m : Int) - 2 ^ bits

/-- Detokenize a `bool` from a word: nonzero means true. -/
def wordBool (w : Nat) : Bool := w != 0

/-- Detokenize a `bytes32` value from a word. -/
def wordB256 (w : Nat) : Nat := w % 2 ^ 256

/-! ## Event declarations and canonical signatures -/

/-- An event declaration as written inside the `sol!` macro: the event name
and the ordered component list, each component carrying its type and its
`indexed` flag. -/
structure EventDecl where
  name : String
  params : List (AbiType × Bool)
deriving Repr

/-- The canonical ABI signature string the `sol!` macro hashes to produce
`SIGNATURE_HASH`: `Name(type1,type2,...)` over all components in declared
order, with the `indexed` flags ignored. -/
def EventDecl.canonicalSignature (d : EventDecl) : String :=
  d.name ++ "(" ++
    String.intercalate "," (d.params.map (fun p => p.1.canonicalString)) ++ ")"

/-- Number of indexed components of an event declaration. -/
def EventDecl.indexedCount (d : EventDecl) : Nat :=
  (d.params.filter (fun p => p.2)).length

/-- The non-indexed component types of an event declaration, in declared
order: the type list of the ABI-encoded data payload. -/
def EventDecl.dataTypes (d : EventDecl) : List AbiType :=
  (d.params.filter (fun p => !p.2)).map (fun p => p.1)

/-- Expected number of topics of a log carrying this (non-anonymous) event:
the signature topic plus one topic per indexed component. -/
def EventDecl.expectedTopicCount (d : EventDecl) : Nat := d.indexedCount + 1

/-! ## The event declarations of the repository

One `EventDecl` per event that has a decoder, transcribed from the `sol!`
blocks of `crates/flashblocks-types/src/{univ3,aave,chainlink,morpho}.rs`.
-/

/-- UniswapV3 `Swap` event declaration (univ3.rs). -/
def univ3SwapDecl : EventDecl :=
  { name := "Swap"
  , params :=
      [ (.addr, true)        -- sender (indexed)
      , (.addr, true)        -- recipient (indexed)
      , (.intT 256, false)   -- amount0
      , (.intT 256, false)   -- amount1
      , (.uintT 160, false)  -- sqrtPriceX96
      , (.uintT 128, false)  -- liquidity
      , (.intT 24, false) ] } -- tick

/-- Aave `Supply` event declaration (aave.rs). -/
def aaveSupplyDecl : EventDecl :=
  { name := "Supply"
  , params :=
      [ (.addr, true)        -- reserve (indexed)
      , (.addr, false)       -- user
      , (.addr, true)        -- onBehalfOf (indexed)
      , (.uintT 256, false)  -- amount
      , (.uintT 16, true) ] } -- referralCode (indexed)

/-- Aave `Withdraw` event declaration (aave.rs). -/
def aaveWithdrawDecl : EventDecl :=
  { name := "Withdraw"
  , params :=
      [ (.addr, true)        -- reserve (indexed)
      , (.addr, true)        -- user (indexed)
      , (.addr, true)        -- to (indexed)
      , (.uintT 256, false) ] } -- amount

/-- Aave `Borrow` event declaration (aave.rs). -/
def aaveBorrowDecl : EventDecl :=
  { name := "Borrow"
  , params :=
      [ (.addr, true)        -- reserve (indexed)
      , (.addr, false)       -- user
      , (.addr, true)        -- onBehalfOf (indexed)
      , (.uintT 256, false)  -- amount
      , (.uintT 8, false)    -- interestRateMode
      , (.uintT 256, false)  -- borrowRate
      , (.uintT 16, true) ] } -- referralCode (indexed)

/-- Aave `Repay` event declaration (aave.rs). -/
def aaveRepayDecl : EventDecl :=
  { name := "Repay"
  , params :=
      [ (.addr, true)        -- reserve (indexed)
      , (.addr, true)        -- user (indexed)
      , (.addr, true)        -- repayer (indexed)
      , (.uintT 256, false)  -- amount
      , (.boolT, false) ] }  -- useATokens

/-- Aave `LiquidationCall` event declaration (aave.rs). -/
def aaveLiquidationCallDecl : EventDecl :=
  { name := "LiquidationCall"
  , params :=
      [ (.addr, true)        -- collateralAsset (indexed)
      , (.addr, true)        -- debtAsset (indexed)
      , (.addr, true)        -- user (indexed)
      , (.uintT 256, false)  -- debtToCover
      , (.uintT 256, false)  -- liquidatedCollateralAmount
      , (.addr, false)       -- liquidator
      , (.boolT, false) ] }  -- receiveAToken

/-- Chainlink `AnswerUpdated` event declaration (chainlink.rs). -/
def chainlinkAnswerUpdatedDecl : EventDecl :=
  { name := "AnswerUpdated"
  , params :=
      [ (.intT 256, true)    -- current (indexed)
      , (.uintT 256, true)   -- roundId (indexed)
      , (.uintT 256, false) ] } -- updatedAt

/-- Chainlink `NewRound` event declaration (chainlink.rs). -/
def chainlinkNewRoundDecl : EventDecl :=
  { name := "NewRound"
  , params :=
      [ (.uintT 256, true)   -- roundId (indexed)
      , (.addr, true)        -- startedBy (indexed)
      , (.uintT 256, false) ] } -- startedAt

/-- Morpho `Supply` event declaration (morpho.rs). -/
def morphoSupplyDecl : EventDecl :=
  { name := "Supply"
  , params :=
      [ (.bytes32T, true)    -- id (indexed)
      , (.addr, true)        -- caller (indexed)
      , (.addr, true)        -- onBehalf (indexed)
      , (.uintT 256, false)  -- assets
      , (.uintT 256, false) ] } -- shares

/-- Morpho `Withdraw` event declaration (morpho.rs). -/
def morphoWithdrawDecl : EventDecl :=
  { name := "Withdraw"
  , params :=
      [ (.bytes32T, true)    -- id (indexed)
      , (.addr, false)       -- caller
      , (.addr, true)        -- onBehalf (indexed)
      , (.addr, true)        -- receiver (indexed)
      , (.uintT 256, false)  -- assets
      , (.uintT 256, false) ] } -- shares

/-- Morpho `Borrow` event declaration (morpho.rs). -/
def morphoBorrowDecl : EventDecl :=
  { name := "Borrow"
  , params :=
      [ (.bytes32T, true)    -- id (indexed)
      , (.addr, false)       -- caller
      , (.addr, true)        -- onBehalf (indexed)
      , (.addr, true)        -- receiver (indexed)
      , (.uintT 256, false)  -- assets
      , (.uintT 256, false) ] } -- shares

/-- Morpho `Repay` event declaration (morpho.rs). -/
def morphoRepayDecl : EventDecl :=
  { name := "Repay"
  , params :=
      [ (.bytes32T, true)    -- id (indexed)
      , (.addr, true)        -- caller (indexed)
      , (.addr, true)        -- onBehalf (indexed)
      , (.uintT 256, false)  -- assets
      , (.uintT 256, false) ] } -- shares

/-- Morpho `SupplyCollateral` event declaration (morpho.rs). -/
def morphoSupplyCollateralDecl : EventDecl :=
  { name := "SupplyCollateral"
  , params :=
      [ (.bytes32T, true)    -- id (indexed)
      , (.addr, true)        -- caller (indexed)
      , (.addr, true)        -- onBehalf (indexed)
      , (.uintT 256, false) ] } -- assets

/-- Morpho `WithdrawCollateral` event declaration (morpho.rs). -/
def morphoWithdrawCollateralDecl : EventDecl :=
  { name := "WithdrawCollateral"
  , params :=
      [ (.bytes32T, true)    -- id (indexed)
      , (.addr, false)       -- caller
      , (.addr, true)        -- onBehalf (indexed)
      , (.addr, true)        -- receiver (indexed)
      , (.uintT 256, false) ] } -- assets

/-- Morpho `Liquidate` event declaration (morpho.rs). -/
def morphoLiquidateDecl : EventDecl :=
  { name := "Liquidate"
  , params :=
      [ (.bytes32T, true)    -- id (indexed)
      , (.addr, true)        -- caller (indexed)
      , (.addr, true)        -- borrower (indexed)
      , (.uintT 256, false)  -- repaidAssets
      , (.uintT 256, false)  -- repaidShares
      , (.uintT 256, false)  -- seizedAssets
      , (.uintT 256, false)  -- badDebtAssets
      , (.uintT 256, false) ] } -- badDebtShares

/-- Morpho `CreateMarket` event declaration (morpho.rs). -/
def morphoCreateMarketDecl : EventDecl :=
  { name := "CreateMarket"
  , params :=
      [ (.bytes32T, true)    -- id (indexed)
      , (.addr, false)       -- loanToken
      , (.addr, false)       -- collateralToken
      , (.addr, false)       -- oracle
      , (.addr, false)       -- irm
      , (.uintT 256, false) ] } -- lltv

/-! ## The signature-hash table

The concrete `SIGNATURE_HASH` constants are keccak256 digests computed at
compile time by the `sol!` macro; their numeric values are irrelevant to
every claim proved here, so they are carried as an explicit parameter.
One field per event kind appearing in the four protocol modules (the four
UniV3 events without decoders are included because the bloom pre-check
uses their hashes too).
-/

/-- A bundle of the 20 compile-time event signature hashes. -/
structure Sigs where
  u3Mint : Nat
  u3Collect : Nat
  u3Burn : Nat
  u3Swap : Nat
  u3Flash : Nat
  aaveSupply : Nat
  aaveWithdraw : Nat
  aaveBorrow : Nat
  aaveRepay : Nat
  aaveLiquidationCall : Nat
  clAnswerUpdated : Nat
  clNewRound : Nat
  moSupply : Nat
  moWithdraw : Nat
  moBorrow : Nat
  moRepay : Nat
  moSupplyCollateral : Nat
  moWithdrawCollateral : Nat
  moLiquidate : Nat
  moCreateMarket : Nat

/-! ## Raw logs and the generic alloy decode path -/

/-- A log entry from a receipt (`ReceiptLog` in flashblocks.rs): emitter
address, data payload bytes, and the topic words. -/
structure ReceiptLog where
  address : Nat
  data : List Nat
  topics : List Nat
deriving Repr, DecidableEq

/-- Decoding spec of one event as used by the generated
`SolEvent::decode_raw_log`: the signature hash to match, the number of
indexed components, and the data-payload type list. -/
structure EventSpec where
  sigHash : Nat
  idxCount : Nat
  dataTypes : List AbiType

/-- Spec of an event from its declaration plus the compile-time hash. -/
def EventDecl.spec (d : EventDecl) (sigHash : Nat) : EventSpec :=
  { sigHash := sigHash, idxCount := d.indexedCount, dataTypes := d.dataTypes }

/-- Topic decoding per `TopicList::detokenize`: consume the signature word
plus `k` indexed words from the topic list; fail if fewer are present;
silently ignore any extra topics. -/
def decodeTopics (k : Nat) (topics : List Nat) : Option (Nat × List Nat) :=
  match topics with
  | [] => none
  | t0 :: rest => if k ≤ rest.length then some (t0, rest.take k) else none

/-- Data-payload decoding of a static tuple with `validate = true`: one
32-byte word per field, no trailing bytes, each word canonical for its
type. Returns the raw words. -/
def decodeWords (types : List AbiType) (bytes : List Nat) : Option (List Nat) :=
  match types with
  | [] => if bytes.isEmpty then some [] else none
  | t :: ts =>
      if bytes.length < 32 then none
      else
        let w := (bytes.take 32).foldl (fun acc b => acc * 256 + b) 0
        if t.wordValid w then (decodeWords ts (bytes.drop 32)).map (fun ws => w :: ws)
        else none

/-- The generated `SolEvent::decode_raw_log(topics, data, true)`: decode
the topic words, check the signature word against `SIGNATURE_HASH`
(validate = true), then decode the data payload. Returns the raw indexed
topic words and the raw data words. -/
def decodeRawLog (spec : EventSpec) (topics : List Nat) (data : List Nat) :
    Option (List Nat × List Nat) :=
  match decodeTopics spec.idxCount topics with
  | none => none
  | some (t0, idx) =>
      if t0 = spec.sigHash then
        match decodeWords spec.dataTypes data with
        | none => none
        | some ws => some (idx, ws)
      else none

/-- Validity check of `alloy_primitives::LogData::new`: at most four
topics. -/
def logDataValid (topics : List Nat) : Bool := decide (topics.length ≤ 4)

/-! ## Panic tracking -/

/-- Result of a computation that can `panic!`. -/
inductive PanicOr (α : Type) where
  | panic : PanicOr α
  | ok (a : α) : PanicOr α
deriving Repr, DecidableEq

/-- Rust slice indexing `l[i]`: panics when out of bounds. -/
def listIndexP (l : List Nat) (i : Nat) : PanicOr Nat :=
  if h : i < l.length then .ok (l.get ⟨i, h⟩) else .panic

/-- Collapse a panic-tracked optional result to the plain `Option` the
Rust function returns on panic-free executions. -/
def PanicOr.run : PanicOr (Option α) → Option α
  | .panic => none
  | .ok o => o

/-- The shared shape of every decoder with an explicit topic-count check
(`try_from_log` in aave.rs, chainlink.rs and morpho.rs): reject unless the
log has exactly `n` topics, then read `topics[0]` (slice indexing — safe
only because of the preceding length check), reject unless it equals the
signature hash, then run `decode_raw_log(topics, data, true)` and build
the parsed event from the raw words. -/
def decodeWithCheck (n : Nat) (spec : EventSpec)
    (build : ReceiptLog → List Nat × List Nat → α) (log : ReceiptLog) :
    PanicOr (Option α) :=
  if log.topics.length ≠ n then .ok none
  else
    match listIndexP log.topics 0 with
    | .panic => .panic
    | .ok t0 =>
        if t0 ≠ spec.sigHash then .ok none
        else .ok ((decodeRawLog spec log.topics log.data).map (build log))

/-! ## UniswapV3: ParsedSwap and pool state (univ3.rs) -/

/-- A decoded UniswapV3 `Swap` event with pool address (`ParsedSwap`). -/
structure ParsedSwap where
  pool : Nat
  sender : Nat
  recipient : Nat
  amount0 : Int
  amount1 : Int
  sqrt_price_x96 : Nat
  liquidity : Nat
  tick : Int
deriving Repr, DecidableEq

/-- Build a `ParsedSwap` from the raw decoded words, mirroring the field
assignments of `ParsedSwap::from_log` (tick via `as_i32`). -/
def ParsedSwap.build (log : ReceiptLog) (r : List Nat × List Nat) : ParsedSwap :=
  { pool := log.address
  , sender := wordAddr (r.1.getD 0 0)
  , recipient := wordAddr (r.1.getD 1 0)
  , amount0 := wordInt 256 (r.2.getD 0 0)
  , amount1 := wordInt 256 (r.2.getD 1 0)
  , sqrt_price_x96 := wordUint 160 (r.2.getD 2 0)
  , liquidity := wordUint 128 (r.2.getD 3 0)
  , tick := wordInt 24 (r.2.getD 4 0) }

/-- Panic-tracked `ParsedSwap::from_log`: compare `topics.first()` against
the `Swap` signature hash (an `Option`-returning access, no indexing),
build the `LogData` (valid only with at most four topics), then
`Swap::decode_log_data(&log_data, true)`. There is no explicit
topic-count check. -/
def ParsedSwap.fromLogP (sigs : Sigs) (log : ReceiptLog) : PanicOr (Option ParsedSwap) :=
  .ok (
    if log.topics.head? ≠ some sigs.u3Swap then none
    else if ! logDataValid log.topics then none
    else (decodeRawLog (univ3SwapDecl.spec sigs.u3Swap) log.topics log.data).map
      (ParsedSwap.build log))

/-- `ParsedSwap::from_log` (panic-free executions). -/
def ParsedSwap.from_log (sigs : Sigs) (log : ReceiptLog) : Option ParsedSwap :=
  (ParsedSwap.fromLogP sigs log).run

/-- `ParsedSwap::extract_all`: order-preserving filter-map over the logs. -/
def ParsedSwap.extract_all (sigs : Sigs) (logs : List ReceiptLog) : List ParsedSwap :=
  logs.filterMap (ParsedSwap.from_log sigs)

/-- Partial slot0 data derived from swap events (`Slot0Partial`). -/
structure Slot0Partial where
  sqrt_price_x96 : Nat
  tick : Int
deriving Repr, DecidableEq

/-- Pool state derived from a `Swap` event (`PoolState`). -/
structure PoolState where
  sqrt_price_x96 : Nat
  tick : Int
  liquidity : Nat
deriving Repr, DecidableEq

/-- Idealized `PoolState::price_0_in_1`. The Rust body is
`(sqrt_price_x96.to::<u128>() as f64 / 2u128.pow(96) as f64)` squared:
the checked conversion `U160::to::<u128>()` panics when the value does
not fit in 128 bits, which is modelled as `none`; the `f64` arithmetic is
idealized to exact rational arithmetic. -/
def PoolState.price_0_in_1 (p : PoolState) : Option ℚ :=
  if p.sqrt_price_x96 < 2 ^ 128 then
    some (((p.sqrt_price_x96 : ℚ) / 2 ^ 96) ^ 2)
  else none

/-- `PoolState::slot0`. -/
def PoolState.slot0 (p : PoolState) : Slot0Partial :=
  { sqrt_price_x96 := p.sqrt_price_x96, tick := p.tick }

/-- `ParsedSwap::pool_state`. -/
def ParsedSwap.pool_state (s : ParsedSwap) : PoolState :=
  { sqrt_price_x96 := s.sqrt_price_x96, tick := s.tick, liquidity := s.liquidity }

/-! ## Aave: parsed events (aave.rs) -/

/-- Parsed Aave `Supply` event (`ParsedSupply`). -/
structure ParsedSupply where
  pool : Nat
  reserve : Nat
  user : Nat
  on_behalf_of : Nat
  amount : Nat
  referral_code : Nat
deriving Repr, DecidableEq

/-- Field assignments of `ParsedSupply::try_from_log`. -/
def ParsedSupply.build (log : ReceiptLog) (r : List Nat × List Nat) : ParsedSupply :=
  { pool := log.address
  , reserve := wordAddr (r.1.getD 0 0)
  , user := wordAddr (r.2.getD 0 0)
  , on_behalf_of := wordAddr (r.1.getD 1 0)
  , amount := wordUint 256 (r.2.getD 1 0)
  , referral_code := wordUint 16 (r.1.getD 2 0) }

/-- Panic-tracked `ParsedSupply::try_from_log`: explicit `topics.len() != 4`
check, `topics[0]` signature comparison, then `decode_raw_log`. -/
def ParsedSupply.tryFromLogP (sigs : Sigs) (log : ReceiptLog) : PanicOr (Option ParsedSupply) :=
  decodeWithCheck 4 (aaveSupplyDecl.spec sigs.aaveSupply) ParsedSupply.build log

/-- `ParsedSupply::try_from_log` (panic-free executions). -/
def ParsedSupply.try_from_log (sigs : Sigs) (log : ReceiptLog) : Option ParsedSupply :=
  (ParsedSupply.tryFromLogP sigs log).run

/-- `ParsedSupply::extract_all`. -/
def ParsedSupply.extract_all (sigs : Sigs) (logs : List ReceiptLog) : List ParsedSupply :=
  logs.filterMap (ParsedSupply.try_from_log sigs)

/-- Parsed Aave `Withdraw` event (`ParsedWithdraw`). -/
structure ParsedWithdraw where
  pool : Nat
  reserve : Nat
  user : Nat
  to_addr : Nat  -- field `to` in the source; `to` is a reserved token here
  amount : Nat
deriving Repr, DecidableEq

/-- Field assignments of `ParsedWithdraw::try_from_log`. -/
def ParsedWithdraw.build (log : ReceiptLog) (r : List Nat × List Nat) : ParsedWithdraw :=
  { pool := log.address
  , reserve := wordAddr (r.1.getD 0 0)
  , user := wordAddr (r.1.getD 1 0)
  , to_addr := wordAddr (r.1.getD 2 0)
  , amount := wordUint 256 (r.2.getD 0 0) }

/-- Panic-tracked `ParsedWithdraw::try_from_log`. -/
def ParsedWithdraw.tryFromLogP (sigs : Sigs) (log : ReceiptLog) : PanicOr (Option ParsedWithdraw) :=
  decodeWithCheck 4 (aaveWithdrawDecl.spec sigs.aaveWithdraw) ParsedWithdraw.build log

/-- `ParsedWithdraw::try_from_log` (panic-free executions). -/
def ParsedWithdraw.try_from_log (sigs : Sigs) (log : ReceiptLog) : Option ParsedWithdraw :=
  (ParsedWithdraw.tryFromLogP sigs log).run

/-- `ParsedWithdraw::extract_all`. -/
def ParsedWithdraw.extract_all (sigs : Sigs) (logs : List ReceiptLog) : List ParsedWithdraw :=
  logs.filterMap (ParsedWithdraw.try_from_log sigs)

/-- Parsed Aave `Borrow` event (`ParsedBorrow`). -/
structure ParsedBorrow where
  pool : Nat
  reserve : Nat
  user : Nat
  on_behalf_of : Nat
  amount : Nat
  interest_rate_mode : Nat
  borrow_rate : Nat
  referral_code : Nat
deriving Repr, DecidableEq

/-- Field assignments of `ParsedBorrow::try_from_log`. -/
def ParsedBorrow.build (log : ReceiptLog) (r : List Nat × List Nat) : ParsedBorrow :=
  { pool := log.address
  , reserve := wordAddr (r.1.getD 0 0)
  , user := wordAddr (r.2.getD 0 0)
  , on_behalf_of := wordAddr (r.1.getD 1 0)
  , amount := wordUint 256 (r.2.getD 1 0)
  , interest_rate_mode := wordUint 8 (r.2.getD 2 0)
  , borrow_rate := wordUint 256 (r.2.getD 3 0)
  , referral_code := wordUint 16 (r.1.getD 2 0) }

/-- Panic-tracked `ParsedBorrow::try_from_log`. -/
def ParsedBorrow.tryFromLogP (sigs : Sigs) (log : ReceiptLog) : PanicOr (Option ParsedBorrow) :=
  decodeWithCheck 4 (aaveBorrowDecl.spec sigs.aaveBorrow) ParsedBorrow.build log

/-- `ParsedBorrow::try_from_log` (panic-free executions). -/
def ParsedBorrow.try_from_log (sigs : Sigs) (log : ReceiptLog) : Option ParsedBorrow :=
  (ParsedBorrow.tryFromLogP sigs log).run

/-- `ParsedBorrow::extract_all`. -/
def ParsedBorrow.extract_all (sigs : Sigs) (logs : List ReceiptLog) : List ParsedBorrow :=
  logs.filterMap (ParsedBorrow.try_from_log sigs)

/-- Parsed Aave `Repay` event (`ParsedRepay`). -/
structure ParsedRepay where
  pool : Nat
  reserve : Nat
  user : Nat
  repayer : Nat
  amount : Nat
  use_a_tokens : Bool
deriving Repr, DecidableEq

/-- Field assignments of `ParsedRepay::try_from_log`. -/
def ParsedRepay.build (log : ReceiptLog) (r : List Nat × List Nat) : ParsedRepay :=
  { pool := log.address
  , reserve := wordAddr (r.1.getD 0 0)
  , user := wordAddr (r.1.getD 1 0)
  , repayer := wordAddr (r.1.getD 2 0)
  , amount := wordUint 256 (r.2.getD 0 0)
  , use_a_tokens := wordBool (r.2.getD 1 0) }

/-- Panic-tracked `ParsedRepay::try_from_log`. -/
def ParsedRepay.tryFromLogP (sigs : Sigs) (log : ReceiptLog) : PanicOr (Option ParsedRepay) :=
  decodeWithCheck 4 (aaveRepayDecl.spec sigs.aaveRepay) ParsedRepay.build log

/-- `ParsedRepay::try_from_log` (panic-free executions). -/
def ParsedRepay.try_from_log (sigs : Sigs) (log : ReceiptLog) : Option ParsedRepay :=
  (ParsedRepay.tryFromLogP sigs log).run

/-- `ParsedRepay::extract_all`. -/
def ParsedRepay.extract_all (sigs : Sigs) (logs : List ReceiptLog) : List ParsedRepay :=
  logs.filterMap (ParsedRepay.try_from_log sigs)

/-- Parsed Aave `LiquidationCall` event (`ParsedLiquidation`). -/
structure ParsedLiquidation where
  pool : Nat
  collateral_asset : Nat
  debt_asset : Nat
  user : Nat
  debt_to_cover : Nat
  liquidated_collateral_amount : Nat
  liquidator : Nat
  receive_a_token : Bool
deriving Repr, DecidableEq

/-- Field assignments of `ParsedLiquidation::try_from_log`. -/
def ParsedLiquidation.build (log : ReceiptLog) (r : List Nat × List Nat) : ParsedLiquidation :=
  { pool := log.address
  , collateral_asset := wordAddr (r.1.getD 0 0)
  , debt_asset := wordAddr (r.1.getD 1 0)
  , user := wordAddr (r.1.getD 2 0)
  , debt_to_cover := wordUint 256 (r.2.getD 0 0)
  , liquidated_collateral_amount := wordUint 256 (r.2.getD 1 0)
  , liquidator := wordAddr (r.2.getD 2 0)
  , receive_a_token := wordBool (r.2.getD 3 0) }

/-- Panic-tracked `ParsedLiquidation::try_from_log`. -/
def ParsedLiquidation.tryFromLogP (sigs : Sigs) (log : ReceiptLog) :
    PanicOr (Option ParsedLiquidation) :=
  decodeWithCheck 4 (aaveLiquidationCallDecl.spec sigs.aaveLiquidationCall)
    ParsedLiquidation.build log

/-- `ParsedLiquidation::try_from_log` (panic-free executions). -/
def ParsedLiquidation.try_from_log (sigs : Sigs) (log : ReceiptLog) : Option ParsedLiquidation :=
  (ParsedLiquidation.tryFromLogP sigs log).run

/-- `ParsedLiquidation::extract_all`. -/
def ParsedLiquidation.extract_all (sigs : Sigs) (logs : List ReceiptLog) :
    List ParsedLiquidation :=
  logs.filterMap (ParsedLiquidation.try_from_log sigs)

/-! ## Chainlink: parsed events (chainlink.rs) -/

/-- Parsed Chainlink `AnswerUpdated` event (`ParsedAnswerUpdated`). -/
structure ParsedAnswerUpdated where
  feed : Nat
  answer : Int
  round_id : Nat
  updated_at : Nat
deriving Repr, DecidableEq

/-- Field assignments of `ParsedAnswerUpdated::try_from_log`. -/
def ParsedAnswerUpdated.build (log : ReceiptLog) (r : List Nat × List Nat) :
    ParsedAnswerUpdated :=
  { feed := log.address
  , answer := wordInt 256 (r.1.getD 0 0)
  , round_id := wordUint 256 (r.1.getD 1 0)
  , updated_at := wordUint 256 (r.2.getD 0 0) }

/-- Panic-tracked `ParsedAnswerUpdated::try_from_log`: explicit
`topics.len() != 3` check, `topics[0]` signature comparison, then
`decode_raw_log`. -/
def ParsedAnswerUpdated.tryFromLogP (sigs : Sigs) (log : ReceiptLog) :
    PanicOr (Option ParsedAnswerUpdated) :=
  decodeWithCheck 3 (chainlinkAnswerUpdatedDecl.spec sigs.clAnswerUpdated)
    ParsedAnswerUpdated.build log

/-- `ParsedAnswerUpdated::try_from_log` (panic-free executions). -/
def ParsedAnswerUpdated.try_from_log (sigs : Sigs) (log : ReceiptLog) :
    Option ParsedAnswerUpdated :=
  (ParsedAnswerUpdated.tryFromLogP sigs log).run

/-- `ParsedAnswerUpdated::extract_all`. -/
def ParsedAnswerUpdated.extract_all (sigs : Sigs) (logs : List ReceiptLog) :
    List ParsedAnswerUpdated :=
  logs.filterMap (ParsedAnswerUpdated.try_from_log sigs)

/-- Parsed Chainlink `NewRound` event (`ParsedNewRound`). -/
structure ParsedNewRound where
  feed : Nat
  round_id : Nat
  started_by : Nat
  started_at : Nat
deriving Repr, DecidableEq

/-- Field assignments of `ParsedNewRound::try_from_log`. -/
def ParsedNewRound.build (log : ReceiptLog) (r : List Nat × List Nat) : ParsedNewRound :=
  { feed := log.address
  , round_id := wordUint 256 (r.1.getD 0 0)
  , started_by := wordAddr (r.1.getD 1 0)
  , started_at := wordUint 256 (r.2.getD 0 0) }

/-- Panic-tracked `ParsedNewRound::try_from_log`. -/
def ParsedNewRound.tryFromLogP (sigs : Sigs) (log : ReceiptLog) :
    PanicOr (Option ParsedNewRound) :=
  decodeWithCheck 3 (chainlinkNewRoundDecl.spec sigs.clNewRound) ParsedNewRound.build log

/-- `ParsedNewRound::try_from_log` (panic-free executions). -/
def ParsedNewRound.try_from_log (sigs : Sigs) (log : ReceiptLog) : Option ParsedNewRound :=
  (ParsedNewRound.tryFromLogP sigs log).run

/-- `ParsedNewRound::extract_all`. -/
def ParsedNewRound.extract_all (sigs : Sigs) (logs : List ReceiptLog) : List ParsedNewRound :=
  logs.filterMap (ParsedNewRound.try_from_log sigs)

/-! ## Morpho: parsed events (morpho.rs) -/

/-- Parsed Morpho `Supply` event (`ParsedMorphoSupply`). -/
structure ParsedMorphoSupply where
  morpho : Nat
  market_id : Nat
  caller : Nat
  on_behalf_of : Nat
  assets : Nat
  shares : Nat
deriving Repr, DecidableEq

/-- Field assignments of `ParsedMorphoSupply::try_from_log`. -/
def ParsedMorphoSupply.build (log : ReceiptLog) (r : List Nat × List Nat) :
    ParsedMorphoSupply :=
  { morpho := log.address
  , market_id := wordB256 (r.1.getD 0 0)
  , caller := wordAddr (r.1.getD 1 0)
  , on_behalf_of := wordAddr (r.1.getD 2 0)
  , assets := wordUint 256 (r.2.getD 0 0)
  , shares := wordUint 256 (r.2.getD 1 0) }

/-- Panic-tracked `ParsedMorphoSupply::try_from_log`. -/
def ParsedMorphoSupply.tryFromLogP (sigs : Sigs) (log : ReceiptLog) :
    PanicOr (Option ParsedMorphoSupply) :=
  decodeWithCheck 4 (morphoSupplyDecl.spec sigs.moSupply) ParsedMorphoSupply.build log

/-- `ParsedMorphoSupply::try_from_log` (panic-free executions). -/
def ParsedMorphoSupply.try_from_log (sigs : Sigs) (log : ReceiptLog) :
    Option ParsedMorphoSupply :=
  (ParsedMorphoSupply.tryFromLogP sigs log).run

/-- `ParsedMorphoSupply::extract_all`. -/
def ParsedMorphoSupply.extract_all (sigs : Sigs) (logs : List ReceiptLog) :
    List ParsedMorphoSupply :=
  logs.filterMap (ParsedMorphoSupply.try_from_log sigs)

/-- Parsed Morpho `Withdraw` event (`ParsedMorphoWithdraw`). -/
structure ParsedMorphoWithdraw where
  morpho : Nat
  market_id : Nat
  caller : Nat
  on_behalf_of : Nat
  receiver : Nat
  assets : Nat
  shares : Nat
deriving Repr, DecidableEq

/-- Field assignments of `ParsedMorphoWithdraw::try_from_log`. -/
def ParsedMorphoWithdraw.build (log : ReceiptLog) (r : List Nat × List Nat) :
    ParsedMorphoWithdraw :=
  { morpho := log.address
  , market_id := wordB256 (r.1.getD 0 0)
  , caller := wordAddr (r.2.getD 0 0)
  , on_behalf_of := wordAddr (r.1.getD 1 0)
  , receiver := wordAddr (r.1.getD 2 0)
  , assets := wordUint 256 (r.2.getD 1 0)
  , shares := wordUint 256 (r.2.getD 2 0) }

/-- Panic-tracked `ParsedMorphoWithdraw::try_from_log`. -/
def ParsedMorphoWithdraw.tryFromLogP (sigs : Sigs) (log : ReceiptLog) :
    PanicOr (Option ParsedMorphoWithdraw) :=
  decodeWithCheck 4 (morphoWithdrawDecl.spec sigs.moWithdraw) ParsedMorphoWithdraw.build log

/-- `ParsedMorphoWithdraw::try_from_log` (panic-free executions). -/
def ParsedMorphoWithdraw.try_from_log (sigs : Sigs) (log : ReceiptLog) :
    Option ParsedMorphoWithdraw :=
  (ParsedMorphoWithdraw.tryFromLogP sigs log).run

/-- `ParsedMorphoWithdraw::extract_all`. -/
def ParsedMorphoWithdraw.extract_all (sigs : Sigs) (logs : List ReceiptLog) :
    List ParsedMorphoWithdraw :=
  logs.filterMap (ParsedMorphoWithdraw.try_from_log sigs)

/-- Parsed Morpho `Borrow` event (`ParsedMorphoBorrow`). -/
structure ParsedMorphoBorrow where
  morpho : Nat
  market_id : Nat
  caller : Nat
  on_behalf_of : Nat
  receiver : Nat
  assets : Nat
  shares : Nat
deriving Repr, DecidableEq

/-- Field assignments of `ParsedMorphoBorrow::try_from_log`. -/
def ParsedMorphoBorrow.build (log : ReceiptLog) (r : List Nat × List Nat) :
    ParsedMorphoBorrow :=
  { morpho := log.address
  , market_id := wordB256 (r.1.getD 0 0)
  , caller := wordAddr (r.2.getD 0 0)
  , on_behalf_of := wordAddr (r.1.getD 1 0)
  , receiver := wordAddr (r.1.getD 2 0)
  , assets := wordUint 256 (r.2.getD 1 0)
  , shares := wordUint 256 (r.2.getD 2 0) }

/-- Panic-tracked `ParsedMorphoBorrow::try_from_log`. -/
def ParsedMorphoBorrow.tryFromLogP (sigs : Sigs) (log : ReceiptLog) :
    PanicOr (Option ParsedMorphoBorrow) :=
  decodeWithCheck 4 (morphoBorrowDecl.spec sigs.moBorrow) ParsedMorphoBorrow.build log

/-- `ParsedMorphoBorrow::try_from_log` (panic-free executions). -/
def ParsedMorphoBorrow.try_from_log (sigs : Sigs) (log : ReceiptLog) :
    Option ParsedMorphoBorrow :=
  (ParsedMorphoBorrow.tryFromLogP sigs log).run

/-- `ParsedMorphoBorrow::extract_all`. -/
def ParsedMorphoBorrow.extract_all (sigs : Sigs) (logs : List ReceiptLog) :
    List ParsedMorphoBorrow :=
  logs.filterMap (ParsedMorphoBorrow.try_from_log sigs)

/-- Parsed Morpho `Repay` event (`ParsedMorphoRepay`). -/
structure ParsedMorphoRepay where
  morpho : Nat
  market_id : Nat
  caller : Nat
  on_behalf_of : Nat
  assets : Nat
  shares : Nat
deriving Repr, DecidableEq

/-- Field assignments of `ParsedMorphoRepay::try_from_log`. -/
def ParsedMorphoRepay.build (log : ReceiptLog) (r : List Nat × List Nat) :
    ParsedMorphoRepay :=
  { morpho := log.address
  , market_id := wordB256 (r.1.getD 0 0)
  , caller := wordAddr (r.1.getD 1 0)
  , on_behalf_of := wordAddr (r.1.getD 2 0)
  , assets := wordUint 256 (r.2.getD 0 0)
  , shares := wordUint 256 (r.2.getD 1 0) }

/-- Panic-tracked `ParsedMorphoRepay::try_from_log`. -/
def ParsedMorphoRepay.tryFromLogP (sigs : Sigs) (log : ReceiptLog) :
    PanicOr (Option ParsedMorphoRepay) :=
  decodeWithCheck 4 (morphoRepayDecl.spec sigs.moRepay) ParsedMorphoRepay.build log

/-- `ParsedMorphoRepay::try_from_log` (panic-free executions). -/
def ParsedMorphoRepay.try_from_log (sigs : Sigs) (log : ReceiptLog) :
    Option ParsedMorphoRepay :=
  (ParsedMorphoRepay.tryFromLogP sigs log).run

/-- `ParsedMorphoRepay::extract_all`. -/
def ParsedMorphoRepay.extract_all (sigs : Sigs) (logs : List ReceiptLog) :
    List ParsedMorphoRepay :=
  logs.filterMap (ParsedMorphoRepay.try_from_log sigs)

/-- Parsed Morpho `SupplyCollateral` event (`ParsedMorphoSupplyCollateral`). -/
structure ParsedMorphoSupplyCollateral where
  morpho : Nat
  market_id : Nat
  caller : Nat
  on_behalf_of : Nat
  assets : Nat
deriving Repr, DecidableEq

/-- Field assignments of `ParsedMorphoSupplyCollateral::try_from_log`. -/
def ParsedMorphoSupplyCollateral.build (log : ReceiptLog) (r : List Nat × List Nat) :
    ParsedMorphoSupplyCollateral :=
  { morpho := log.address
  , market_id := wordB256 (r.1.getD 0 0)
  , caller := wordAddr (r.1.getD 1 0)
  , on_behalf_of := wordAddr (r.1.getD 2 0)
  , assets := wordUint 256 (r.2.getD 0 0) }

/-- Panic-tracked `ParsedMorphoSupplyCollateral::try_from_log`. -/
def ParsedMorphoSupplyCollateral.tryFromLogP (sigs : Sigs) (log : ReceiptLog) :
    PanicOr (Option ParsedMorphoSupplyCollateral) :=
  decodeWithCheck 4 (morphoSupplyCollateralDecl.spec sigs.moSupplyCollateral)
    ParsedMorphoSupplyCollateral.build log

/-- `ParsedMorphoSupplyCollateral::try_from_log` (panic-free executions). -/
def ParsedMorphoSupplyCollateral.try_from_log (sigs : Sigs) (log : ReceiptLog) :
    Option ParsedMorphoSupplyCollateral :=
  (ParsedMorphoSupplyCollateral.tryFromLogP sigs log).run

/-- `ParsedMorphoSupplyCollateral::extract_all`. -/
def ParsedMorphoSupplyCollateral.extract_all (sigs : Sigs) (logs : List ReceiptLog) :
    List ParsedMorphoSupplyCollateral :=
  logs.filterMap (ParsedMorphoSupplyCollateral.try_from_log sigs)

/-- Parsed Morpho `WithdrawCollateral` event (`ParsedMorphoWithdrawCollateral`). -/
structure ParsedMorphoWithdrawCollateral where
  morpho : Nat
  market_id : Nat
  caller : Nat
  on_behalf_of : Nat
  receiver : Nat
  assets : Nat
deriving Repr, DecidableEq

/-- Field assignments of `ParsedMorphoWithdrawCollateral::try_from_log`. -/
def ParsedMorphoWithdrawCollateral.build (log : ReceiptLog) (r : List Nat × List Nat) :
    ParsedMorphoWithdrawCollateral :=
  { morpho := log.address
  , market_id := wordB256 (r.1.getD 0 0)
  , caller := wordAddr (r.2.getD 0 0)
  , on_behalf_of := wordAddr (r.1.getD 1 0)
  , receiver := wordAddr (r.1.getD 2 0)
  , assets := wordUint 256 (r.2.getD 1 0) }

/-- Panic-tracked `ParsedMorphoWithdrawCollateral::try_from_log`. -/
def ParsedMorphoWithdrawCollateral.tryFromLogP (sigs : Sigs) (log : ReceiptLog) :
    PanicOr (Option ParsedMorphoWithdrawCollateral) :=
  decodeWithCheck 4 (morphoWithdrawCollateralDecl.spec sigs.moWithdrawCollateral)
    ParsedMorphoWithdrawCollateral.build log

/-- `ParsedMorphoWithdrawCollateral::try_from_log` (panic-free executions). -/
def ParsedMorphoWithdrawCollateral.try_from_log (sigs : Sigs) (log : ReceiptLog) :
    Option ParsedMorphoWithdrawCollateral :=
  (ParsedMorphoWithdrawCollateral.tryFromLogP sigs log).run

/-- `ParsedMorphoWithdrawCollateral::extract_all`. -/
def ParsedMorphoWithdrawCollateral.extract_all (sigs : Sigs) (logs : List ReceiptLog) :
    List ParsedMorphoWithdrawCollateral :=
  logs.filterMap (ParsedMorphoWithdrawCollateral.try_from_log sigs)

/-- Parsed Morpho `Liquidate` event (`ParsedMorphoLiquidation`). -/
structure ParsedMorphoLiquidation where
  morpho : Nat
  market_id : Nat
  caller : Nat
  borrower : Nat
  repaid_assets : Nat
  repaid_shares : Nat
  seized_assets : Nat
  bad_debt_assets : Nat
  bad_debt_shares : Nat
deriving Repr, DecidableEq

/-- Field assignments of `ParsedMorphoLiquidation::try_from_log`. -/
def ParsedMorphoLiquidation.build (log : ReceiptLog) (r : List Nat × List Nat) :
    ParsedMorphoLiquidation :=
  { morpho := log.address
  , market_id := wordB256 (r.1.getD 0 0)
  , caller := wordAddr (r.1.getD 1 0)
  , borrower := wordAddr (r.1.getD 2 0)
  , repaid_assets := wordUint 256 (r.2.getD 0 0)
  , repaid_shares := wordUint 256 (r.2.getD 1 0)
  , seized_assets := wordUint 256 (r.2.getD 2 0)
  , bad_debt_assets := wordUint 256 (r.2.getD 3 0)
  , bad_debt_shares := wordUint 256 (r.2.getD 4 0) }

/-- Panic-tracked `ParsedMorphoLiquidation::try_from_log`. -/
def ParsedMorphoLiquidation.tryFromLogP (sigs : Sigs) (log : ReceiptLog) :
    PanicOr (Option ParsedMorphoLiquidation) :=
  decodeWithCheck 4 (morphoLiquidateDecl.spec sigs.moLiquidate)
    ParsedMorphoLiquidation.build log

/-- `ParsedMorphoLiquidation::try_from_log` (panic-free executions). -/
def ParsedMorphoLiquidation.try_from_log (sigs : Sigs) (log : ReceiptLog) :
    Option ParsedMorphoLiquidation :=
  (ParsedMorphoLiquidation.tryFromLogP sigs log).run

/-- `ParsedMorphoLiquidation::extract_all`. -/
def ParsedMorphoLiquidation.extract_all (sigs : Sigs) (logs : List ReceiptLog) :
    List ParsedMorphoLiquidation :=
  logs.filterMap (ParsedMorphoLiquidation.try_from_log sigs)

/-- Parsed Morpho `CreateMarket` event (`ParsedMorphoCreateMarket`). -/
structure ParsedMorphoCreateMarket where
  morpho : Nat
  market_id : Nat
  loan_token : Nat
  collateral_token : Nat
  oracle : Nat
  irm : Nat
  lltv : Nat
deriving Repr, DecidableEq

/-- Field assignments of `ParsedMorphoCreateMarket::try_from_log`. -/
def ParsedMorphoCreateMarket.build (log : ReceiptLog) (r : List Nat × List Nat) :
    ParsedMorphoCreateMarket :=
  { morpho := log.address
  , market_id := wordB256 (r.1.getD 0 0)
  , loan_token := wordAddr (r.2.getD 0 0)
  , collateral_token := wordAddr (r.2.getD 1 0)
  , oracle := wordAddr (r.2.getD 2 0)
  , irm := wordAddr (r.2.getD 3 0)
  , lltv := wordUint 256 (r.2.getD 4 0) }

/-- Panic-tracked `ParsedMorphoCreateMarket::try_from_log`: explicit
`topics.len() != 2` check (only the market id is indexed). -/
def ParsedMorphoCreateMarket.tryFromLogP (sigs : Sigs) (log : ReceiptLog) :
    PanicOr (Option ParsedMorphoCreateMarket) :=
  decodeWithCheck 2 (morphoCreateMarketDecl.spec sigs.moCreateMarket)
    ParsedMorphoCreateMarket.build log

/-- `ParsedMorphoCreateMarket::try_from_log` (panic-free executions). -/
def ParsedMorphoCreateMarket.try_from_log (sigs : Sigs) (log : ReceiptLog) :
    Option ParsedMorphoCreateMarket :=
  (ParsedMorphoCreateMarket.tryFromLogP sigs log).run

/-- `ParsedMorphoCreateMarket::extract_all`. -/
def ParsedMorphoCreateMarket.extract_all (sigs : Sigs) (logs : List ReceiptLog) :
    List ParsedMorphoCreateMarket :=
  logs.filterMap (ParsedMorphoCreateMarket.try_from_log sigs)

/-! ## Bloom prefilter structs (from_bloom / any) -/

/-- Detected UniswapV3 events based on bloom filter (`UniV3Events`). -/
structure UniV3Events where
  may_have_mint : Bool
  may_have_collect : Bool
  may_have_burn : Bool
  may_have_swap : Bool
  may_have_flash : Bool
deriving Repr, DecidableEq

/-- `UniV3Events::from_bloom`. -/
def UniV3Events.from_bloom (sigs : Sigs) (bloom : Bloom) : UniV3Events :=
  { may_have_mint := bloom.containsHash sigs.u3Mint
  , may_have_collect := bloom.containsHash sigs.u3Collect
  , may_have_burn := bloom.containsHash sigs.u3Burn
  , may_have_swap := bloom.containsHash sigs.u3Swap
  , may_have_flash := bloom.containsHash sigs.u3Flash }

/-- `UniV3Events::any`. -/
def UniV3Events.any (e : UniV3Events) : Bool :=
  e.may_have_mint || e.may_have_collect || e.may_have_burn || e.may_have_swap ||
    e.may_have_flash

/-- Detected Aave events based on bloom filter (`AaveEvents`). -/
structure AaveEvents where
  may_have_supply : Bool
  may_have_withdraw : Bool
  may_have_borrow : Bool
  may_have_repay : Bool
  may_have_liquidation : Bool
deriving Repr, DecidableEq

/-- `AaveEvents::from_bloom`. -/
def AaveEvents.from_bloom (sigs : Sigs) (bloom : Bloom) : AaveEvents :=
  { may_have_supply := bloom.containsHash sigs.aaveSupply
  , may_have_withdraw := bloom.containsHash sigs.aaveWithdraw
  , may_have_borrow := bloom.containsHash sigs.aaveBorrow
  , may_have_repay := bloom.containsHash sigs.aaveRepay
  , may_have_liquidation := bloom.containsHash sigs.aaveLiquidationCall }

/-- `AaveEvents::any`. -/
def AaveEvents.any (e : AaveEvents) : Bool :=
  e.may_have_supply || e.may_have_withdraw || e.may_have_borrow || e.may_have_repay ||
    e.may_have_liquidation

/-- Detected Chainlink oracle events based on bloom filter
(`ChainlinkEvents`). -/
structure ChainlinkEvents where
  may_have_answer_updated : Bool
  may_have_new_round : Bool
deriving Repr, DecidableEq

/-- `ChainlinkEvents::from_bloom`. -/
def ChainlinkEvents.from_bloom (sigs : Sigs) (bloom : Bloom) : ChainlinkEvents :=
  { may_have_answer_updated := bloom.containsHash sigs.clAnswerUpdated
  , may_have_new_round := bloom.containsHash sigs.clNewRound }

/-- `ChainlinkEvents::any`. -/
def ChainlinkEvents.any (e : ChainlinkEvents) : Bool :=
  e.may_have_answer_updated || e.may_have_new_round

/-- Detected Morpho events based on bloom filter (`MorphoEvents`). -/
structure MorphoEvents where
  may_have_supply : Bool
  may_have_withdraw : Bool
  may_have_borrow : Bool
  may_have_repay : Bool
  may_have_supply_collateral : Bool
  may_have_withdraw_collateral : Bool
  may_have_liquidation : Bool
  may_have_create_market : Bool
deriving Repr, DecidableEq

/-- `MorphoEvents::from_bloom`. -/
def MorphoEvents.from_bloom (sigs : Sigs) (bloom : Bloom) : MorphoEvents :=
  { may_have_supply := bloom.containsHash sigs.moSupply
  , may_have_withdraw := bloom.containsHash sigs.moWithdraw
  , may_have_borrow := bloom.containsHash sigs.moBorrow
  , may_have_repay := bloom.containsHash sigs.moRepay
  , may_have_supply_collateral := bloom.containsHash sigs.moSupplyCollateral
  , may_have_withdraw_collateral := bloom.containsHash sigs.moWithdrawCollateral
  , may_have_liquidation := bloom.containsHash sigs.moLiquidate
  , may_have_create_market := bloom.containsHash sigs.moCreateMarket }

/-- `MorphoEvents::any`. -/
def MorphoEvents.any (e : MorphoEvents) : Bool :=
  e.may_have_supply || e.may_have_withdraw || e.may_have_borrow || e.may_have_repay ||
    e.may_have_supply_collateral || e.may_have_withdraw_collateral ||
    e.may_have_liquidation || e.may_have_create_market

/-! ## Protocol event bundles -/

/-- All Aave user action events extracted from logs (`AaveUserUpdates`). -/
structure AaveUserUpdates where
  supplies : List ParsedSupply
  withdraws : List ParsedWithdraw
  borrows : List ParsedBorrow
  repays : List ParsedRepay
  liquidations : List ParsedLiquidation
deriving Repr, DecidableEq

/-- `AaveUserUpdates::extract_all`. -/
def AaveUserUpdates.extract_all (sigs : Sigs) (logs : List ReceiptLog) : AaveUserUpdates :=
  { supplies := ParsedSupply.extract_all sigs logs
  , withdraws := ParsedWithdraw.extract_all sigs logs
  , borrows := ParsedBorrow.extract_all sigs logs
  , repays := ParsedRepay.extract_all sigs logs
  , liquidations := ParsedLiquidation.extract_all sigs logs }

/-- `AaveUserUpdates::is_empty`. -/
def AaveUserUpdates.is_empty (u : AaveUserUpdates) : Bool :=
  u.supplies.isEmpty && u.withdraws.isEmpty && u.borrows.isEmpty && u.repays.isEmpty &&
    u.liquidations.isEmpty

/-- `AaveUserUpdates::total_count`. -/
def AaveUserUpdates.total_count (u : AaveUserUpdates) : Nat :=
  u.supplies.length + u.withdraws.length + u.borrows.length + u.repays.length +
    u.liquidations.length

/-- `AaveUserUpdates::default` (all sequences empty). -/
def AaveUserUpdates.default : AaveUserUpdates :=
  { supplies := [], withdraws := [], borrows := [], repays := [], liquidations := [] }

/-- All Morpho events extracted from logs (`MorphoUpdates`). -/
structure MorphoUpdates where
  supplies : List ParsedMorphoSupply
  withdraws : List ParsedMorphoWithdraw
  borrows : List ParsedMorphoBorrow
  repays : List ParsedMorphoRepay
  supply_collaterals : List ParsedMorphoSupplyCollateral
  withdraw_collaterals : List ParsedMorphoWithdrawCollateral
  liquidations : List ParsedMorphoLiquidation
  create_markets : List ParsedMorphoCreateMarket
deriving Repr, DecidableEq

/-- `MorphoUpdates::extract_all`. -/
def MorphoUpdates.extract_all (sigs : Sigs) (logs : List ReceiptLog) : MorphoUpdates :=
  { supplies := ParsedMorphoSupply.extract_all sigs logs
  , withdraws := ParsedMorphoWithdraw.extract_all sigs logs
  , borrows := ParsedMorphoBorrow.extract_all sigs logs
  , repays := ParsedMorphoRepay.extract_all sigs logs
  , supply_collaterals := ParsedMorphoSupplyCollateral.extract_all sigs logs
  , withdraw_collaterals := ParsedMorphoWithdrawCollateral.extract_all sigs logs
  , liquidations := ParsedMorphoLiquidation.extract_all sigs logs
  , create_markets := ParsedMorphoCreateMarket.extract_all sigs logs }

/-- `MorphoUpdates::is_empty`. -/
def MorphoUpdates.is_empty (u : MorphoUpdates) : Bool :=
  u.supplies.isEmpty && u.withdraws.isEmpty && u.borrows.isEmpty && u.repays.isEmpty &&
    u.supply_collaterals.isEmpty && u.withdraw_collaterals.isEmpty &&
    u.liquidations.isEmpty && u.create_markets.isEmpty

/-- `MorphoUpdates::total_count`. -/
def MorphoUpdates.total_count (u : MorphoUpdates) : Nat :=
  u.supplies.length + u.withdraws.length + u.borrows.length + u.repays.length +
    u.supply_collaterals.length + u.withdraw_collaterals.length +
    u.liquidations.length + u.create_markets.length

/-- `MorphoUpdates::default` (all sequences empty). -/
def MorphoUpdates.default : MorphoUpdates :=
  { supplies := [], withdraws := [], borrows := [], repays := []
  , supply_collaterals := [], withdraw_collaterals := [], liquidations := []
  , create_markets := [] }

/-! ## Receipts and flashblocks (flashblocks.rs) -/

/-- Inner receipt data (`ReceiptInner`). -/
structure ReceiptInner where
  logs : List ReceiptLog
  logs_bloom : Option Bloom
  status : Option String
  cumulative_gas_used : Option String
deriving Repr, DecidableEq

/-- Receipt wrapped by transaction type (`FlashblockReceipt`). -/
inductive FlashblockReceipt where
  | legacy (inner : ReceiptInner)
  | eip2930 (inner : ReceiptInner)
  | eip1559 (inner : ReceiptInner)
  | eip4844 (inner : ReceiptInner)
  | eip7702 (inner : ReceiptInner)
  | deposit (inner : ReceiptInner)
deriving Repr, DecidableEq

/-- `FlashblockReceipt::inner`. -/
def FlashblockReceipt.inner : FlashblockReceipt → ReceiptInner
  | .legacy inner | .eip2930 inner | .eip1559 inner
  | .eip4844 inner | .eip7702 inner | .deposit inner => inner

/-- `FlashblockReceipt::logs`. -/
def FlashblockReceipt.logs (r : FlashblockReceipt) : List ReceiptLog := r.inner.logs

/-- `FlashblockReceipt::may_have_swap`: consult the bloom when present;
with no bloom, assume the receipt might have swaps (`unwrap_or(true)`). -/
def FlashblockReceipt.may_have_swap (sigs : Sigs) (r : FlashblockReceipt) : Bool :=
  match r.inner.logs_bloom with
  | some bloom => bloom.containsHash sigs.u3Swap
  | none => true

/-- `FlashblockReceipt::may_have_answer_updated`: same fail-open shape for
the Chainlink `AnswerUpdated` hash. -/
def FlashblockReceipt.may_have_answer_updated (sigs : Sigs) (r : FlashblockReceipt) : Bool :=
  match r.inner.logs_bloom with
  | some bloom => bloom.containsHash sigs.clAnswerUpdated
  | none => true

/-- Flashblock metadata (`FlashblockMetadata`). The `HashMap<String, _>`
of receipts is modelled as an association list; its order stands for the
unspecified map iteration order. -/
structure FlashblockMetadata where
  receipts : List (String × FlashblockReceipt)
  new_account_balances : List (String × String)
  block_number : Nat
deriving Repr, DecidableEq

/-- `FlashblockMetadata::extract_swaps`: filter receipts through the bloom
pre-check, then decode every log of the surviving receipts. -/
def FlashblockMetadata.extract_swaps (sigs : Sigs) (md : FlashblockMetadata) :
    List ParsedSwap :=
  (((md.receipts.map Prod.snd).filter (fun r => r.may_have_swap sigs)).flatMap
    (fun r => ParsedSwap.extract_all sigs r.logs))

/-- `FlashblockMetadata::extract_answer_updates`. -/
def FlashblockMetadata.extract_answer_updates (sigs : Sigs) (md : FlashblockMetadata) :
    List ParsedAnswerUpdated :=
  (((md.receipts.map Prod.snd).filter (fun r => r.may_have_answer_updated sigs)).flatMap
    (fun r => ParsedAnswerUpdated.extract_all sigs r.logs))

/-- A minimal view of the flashblock payload (`Flashblock`); the opaque
JSON fields `base` and `diff` play no role in event extraction and are
omitted. -/
structure Flashblock where
  payload_id : String
  index : Nat
  metadata : Option FlashblockMetadata
deriving Repr, DecidableEq

/-- `Flashblock::extract_swaps`. -/
def Flashblock.extract_swaps (sigs : Sigs) (fb : Flashblock) : List ParsedSwap :=
  match fb.metadata with
  | some md => md.extract_swaps sigs
  | none => []

/-- `Flashblock::extract_answer_updates`. -/
def Flashblock.extract_answer_updates (sigs : Sigs) (fb : Flashblock) :
    List ParsedAnswerUpdated :=
  match fb.metadata with
  | some md => md.extract_answer_updates sigs
  | none => []

/-! ## Output sinks (crates/streams) -/

/-- `StreamError` (error.rs). -/
inductive StreamError where
  | sendError (msg : String)
deriving Repr, DecidableEq

/-- Result of `tokio::sync::broadcast::Sender::send`: the message is stored
and the receiver count returned when at least one receiver exists;
otherwise the message comes back as an error. -/
def broadcastSend (receivers : Nat) : Except Unit Nat :=
  if receivers = 0 then .error () else .ok receivers

/-- A serialized payload: `serde_json::to_string` either produces the JSON
text or fails. -/
abbrev Serialized : Type := Option String

/-- The sink selected at runtime (`StreamOutput` in output.rs), carrying
the current subscriber count of the backends that have one. -/
inductive StreamOutput where
  | print : StreamOutput
  | websocket (receivers : Nat) : StreamOutput
  | sse (receivers : Nat) : StreamOutput
deriving Repr, DecidableEq

/-- Number of currently connected subscribers of a sink (`PrintStream`
writes synchronously and has none). -/
def StreamOutput.subscribers : StreamOutput → Nat
  | .print => 0
  | .websocket receivers => receivers
  | .sse receivers => receivers

/-- `PrintStream::send_envelope`: serialize and print; only a
serialization failure is an error. -/
def printSendEnvelope (json : Serialized) : Except StreamError Unit :=
  match json with
  | some _ => .ok ()
  | none => .error (.sendError "Failed to serialize data")

/-- `WebSocketServer::send_envelope`: serialize, then publish on the
broadcast channel; a send with no receivers is logged and mapped to `Ok`. -/
def websocketSendEnvelope (receivers : Nat) (json : Serialized) : Except StreamError Unit :=
  match json with
  | none => .error (.sendError "Failed to serialize data")
  | some _ =>
      match broadcastSend receivers with
      | .ok _ => .ok ()
      | .error _ => .ok ()

/-- `SseServer::send_envelope`: identical shape to the WebSocket sink. -/
def sseSendEnvelope (receivers : Nat) (json : Serialized) : Except StreamError Unit :=
  match json with
  | none => .error (.sendError "Failed to serialize data")
  | some _ =>
      match broadcastSend receivers with
      | .ok _ => .ok ()
      | .error _ => .ok ()

/-- `StreamOutput::send_envelope`: dispatch to the selected backend. -/
def StreamOutput.send_envelope (out : StreamOutput) (json : Serialized) :
    Except StreamError Unit :=
  match out with
  | .print => printSendEnvelope json
  | .websocket receivers => websocketSendEnvelope receivers json
  | .sse receivers => sseSendEnvelope receivers json

/-- `StreamOutput::send`: wrap the payload in a `StreamEnvelope` with the
given label and publish it; `json` is the serialization of that envelope. -/
def StreamOutput.send (out : StreamOutput) (label : String) (json : Serialized) :
    Except StreamError Unit :=
  match label with
  | _ => out.send_envelope json

/-! ## Per-protocol dispatch (src/protocols) -/

/-- Type label of UniV3 swap envelopes. -/
def swapLabel : String := "UniV3_swap"

/-- Type label of Chainlink answer-update envelopes. -/
def answerUpdatedLabel : String := "Chainlink_answer_updated"

/-- A payload published by one of the two registered protocol handlers. -/
inductive ProtoEvent where
  | swapEv (s : ParsedSwap) : ProtoEvent
  | answerEv (u : ParsedAnswerUpdated) : ProtoEvent
deriving Repr, DecidableEq

/-- An envelope as published to the sink: type label plus payload. -/
abbrev Envelope : Type := String × ProtoEvent

/-- The envelopes `UniV3Handler::process` publishes for one flashblock, in
its send order: one `"UniV3_swap"` envelope per extracted swap (the
early return on an empty extraction publishes nothing, which coincides
with mapping over the empty list). -/
def UniV3Handler.out (sigs : Sigs) (fb : Flashblock) : List Envelope :=
  (fb.extract_swaps sigs).map (fun s => (swapLabel, ProtoEvent.swapEv s))

/-- The envelopes `ChainlinkHandler::process` publishes for one
flashblock: one `"Chainlink_answer_updated"` envelope per extracted
answer update. -/
def ChainlinkHandler.out (sigs : Sigs) (fb : Flashblock) : List Envelope :=
  (fb.extract_answer_updates sigs).map (fun u => (answerUpdatedLabel, ProtoEvent.answerEv u))

/-- Interleaving of two lists: the order within each list is preserved,
their relative order is arbitrary. -/
inductive Interleave : List α → List α → List α → Prop where
  | nil : Interleave [] [] []
  | left {x : α} {xs ys zs : List α} :
      Interleave xs ys zs → Interleave (x :: xs) ys (x :: zs)
  | right {y : α} {xs ys zs : List α} :
      Interleave xs ys zs → Interleave xs (y :: ys) (y :: zs)

/-- `process_all_protocols` (src/protocols/mod.rs): both registered
handlers run concurrently inside a `rayon::scope` against the same
immutable flashblock and publish to the shared sink; the scope joins
before returning. The observable sink trace is therefore some
interleaving of the two handlers' send sequences. -/
def ProcessAllProtocols (sigs : Sigs) (fb : Flashblock) (published : List Envelope) : Prop :=
  Interleave (UniV3Handler.out sigs fb) (ChainlinkHandler.out sigs fb) published

/-! ## SSE connection lifecycle (crates/streams/src/sse.rs)

The registry interactions of one accepted SSE connection, as written in
`handle_request`:
- the `client_id -> address` pair is inserted into the registry before the
  streaming response is returned;
- a cleanup task is spawned that sleeps 100 ms and then removes the
  `client_id` from the registry — the task is not tied to the connection:
  it fires after the fixed sleep whether or not the peer is still
  connected;
- the connection path itself performs no registry removal when the peer
  disconnects.
-/

/-- Registry-relevant state of one SSE connection. -/
structure SseConnState where
  registered : Bool
  live : Bool
  cleanupFired : Bool
deriving Repr, DecidableEq

/-- State right after `handle_request` has inserted the client into the
registry, spawned the cleanup task and returned the streaming response. -/
def sseInit : SseConnState :=
  { registered := true, live := true, cleanupFired := false }

/-- Transitions of one SSE connection. `cleanup` is the spawned task's
sleep elapsing: it removes the registry entry unconditionally, whether or
not the connection is still live. `close` is the peer disconnecting: the
connection path removes nothing from the registry. -/
inductive SseStep : SseConnState → SseConnState → Prop where
  | cleanup {s : SseConnState} (h : s.cleanupFired = false) :
      SseStep s { registered := false, live := s.live, cleanupFired := true }
  | close {s : SseConnState} (h : s.live = true) :
      SseStep s { registered := s.registered, live := false, cleanupFired := s.cleanupFired }

/-- States reachable from `sseInit`. -/
inductive SseReachable : SseConnState → Prop where
  | init : SseReachable sseInit
  | step {s t : SseConnState} : SseReachable s → SseStep s t → SseReachable t

/-! ## Helper lemmas -/

lemma list_contains_of_mem {l : List Nat} {x : Nat} (h : x ∈ l) : l.contains x = true := by
  simpa using h

lemma Bloom.containsHash_accrue_self (b : Bloom) (h : Nat) :
    (b.accrueHash h).containsHash h = true := by
  simp only [Bloom.containsHash, Bloom.accrueHash, List.all_eq_true]
  intro i hi
  exact list_contains_of_mem (List.mem_append_left b hi)

lemma Bloom.containsHash_accrue_mono (b : Bloom) (h h2 : Nat)
    (hc : b.containsHash h = true) : (b.accrueHash h2).containsHash h = true := by
  simp only [Bloom.containsHash, Bloom.accrueHash, List.all_eq_true] at hc ⊢
  intro i hi
  have hmem : i ∈ b := by simpa using hc i hi
  exact list_contains_of_mem (List.mem_append_right _ hmem)

lemma Bloom.containsHash_accrueMany_mono (hs : List Nat) (b : Bloom) (h : Nat)
    (hc : b.containsHash h = true) : (b.accrueMany hs).containsHash h = true := by
  induction hs generalizing b with
  | nil => exact hc
  | cons h2 rest ih => exact ih _ (Bloom.containsHash_accrue_mono b h h2 hc)

lemma Bloom.containsHash_inserted (b : Bloom) (hs : List Nat) (h : Nat) :
    ((b.accrueHash h).accrueMany hs).containsHash h = true :=
  Bloom.containsHash_accrueMany_mono hs _ h (Bloom.containsHash_accrue_self b h)

lemma length_filterMap_countP {α β : Type} (f : α → Option β) (l : List α) :
    (l.filterMap f).length = l.countP (fun a => (f a).isSome) := by
  induction l with
  | nil => rfl
  | cons x xs ih =>
    simp only [List.filterMap_cons, List.countP_cons]
    cases h : f x <;> simp [h, ih]

lemma length_flatMap_filterMap {β γ δ : Type} (g : β → List γ) (f : γ → Option δ)
    (rs : List β) :
    (rs.flatMap (fun r => (g r).filterMap f)).length =
      (rs.flatMap g).countP (fun a => (f a).isSome) := by
  induction rs with
  | nil => rfl
  | cons r rest ih =>
    simp only [List.flatMap_cons, List.length_append, List.countP_append, ih,
      length_filterMap_countP]

lemma Interleave.countP_eq {α : Type} (p : α → Bool) {xs ys zs : List α}
    (h : Interleave xs ys zs) : zs.countP p = xs.countP p + ys.countP p := by
  induction h with
  | nil => rfl
  | left _ ih => simp only [List.countP_cons, ih]; omega
  | right _ ih => simp only [List.countP_cons, ih]; omega

lemma interleave_append {α : Type} (xs ys : List α) : Interleave xs ys (xs ++ ys) := by
  induction xs with
  | nil =>
    induction ys with
    | nil => exact .nil
    | cons y ys ih => exact .right ih
  | cons x xs ih => exact .left ih

lemma decodeWithCheck_run_len_ne {α : Type} {n : Nat} {spec : EventSpec}
    {build : ReceiptLog → List Nat × List Nat → α} {log : ReceiptLog}
    (h : log.topics.length ≠ n) : (decodeWithCheck n spec build log).run = none := by
  simp [decodeWithCheck, h, PanicOr.run]

lemma decodeWithCheck_no_panic {α : Type} (n : Nat) (hn : n ≠ 0) (spec : EventSpec)
    (build : ReceiptLog → List Nat × List Nat → α) (log : ReceiptLog) :
    ∃ o, decodeWithCheck n spec build log = .ok o := by
  unfold decodeWithCheck
  by_cases hlen : log.topics.length = n
  · have hn0 : 0 < n := Nat.pos_of_ne_zero hn
    simp only [hlen, ne_eq, not_true_eq_false, if_false, listIndexP, hn0, dif_pos]
    split <;> exact ⟨_, rfl⟩
  · simp [hlen]

/-! ## Claim theorems -/

/-- C1. For every protocol prefilter (UniV3Events, AaveEvents,
ChainlinkEvents, MorphoEvents) and every event kind it covers: for any
bloom filter into which that kind's signature hash has been inserted —
here, any bloom of the form `(b.accrueHash sig).accrueMany hs`, i.e. the
hash is inserted and arbitrarily many further insertions follow —
`from_bloom` sets that kind's flag to `true`: the prefilter never
produces a false negative. -/
theorem bloom_prefilter_no_false_negative (sigs : Sigs) (b : Bloom) (hs : List Nat) :
    (UniV3Events.from_bloom sigs ((b.accrueHash sigs.u3Mint).accrueMany hs)).may_have_mint
        = true ∧
    (UniV3Events.from_bloom sigs ((b.accrueHash sigs.u3Collect).accrueMany hs)).may_have_collect
        = true ∧
    (UniV3Events.from_bloom sigs ((b.accrueHash sigs.u3Burn).accrueMany hs)).may_have_burn
        = true ∧
    (UniV3Events.from_bloom sigs ((b.accrueHash sigs.u3Swap).accrueMany hs)).may_have_swap
        = true ∧
    (UniV3Events.from_bloom sigs ((b.accrueHash sigs.u3Flash).accrueMany hs)).may_have_flash
        = true ∧
    (AaveEvents.from_bloom sigs ((b.accrueHash sigs.aaveSupply).accrueMany hs)).may_have_supply
        = true ∧
    (AaveEvents.from_bloom sigs ((b.accrueHash sigs.aaveWithdraw).accrueMany hs)).may_have_withdraw
        = true ∧
    (AaveEvents.from_bloom sigs ((b.accrueHash sigs.aaveBorrow).accrueMany hs)).may_have_borrow
        = true ∧
    (AaveEvents.from_bloom sigs ((b.accrueHash sigs.aaveRepay).accrueMany hs)).may_have_repay
        = true ∧
    (AaveEvents.from_bloom sigs
        ((b.accrueHash sigs.aaveLiquidationCall).accrueMany hs)).may_have_liquidation = true ∧
    (ChainlinkEvents.from_bloom sigs
        ((b.accrueHash sigs.clAnswerUpdated).accrueMany hs)).may_have_answer_updated = true ∧
    (ChainlinkEvents.from_bloom sigs
        ((b.accrueHash sigs.clNewRound).accrueMany hs)).may_have_new_round = true ∧
    (MorphoEvents.from_bloom sigs ((b.accrueHash sigs.moSupply).accrueMany hs)).may_have_supply
        = true ∧
    (MorphoEvents.from_bloom sigs ((b.accrueHash sigs.moWithdraw).accrueMany hs)).may_have_withdraw
        = true ∧
    (MorphoEvents.from_bloom sigs ((b.accrueHash sigs.moBorrow).accrueMany hs)).may_have_borrow
        = true ∧
    (MorphoEvents.from_bloom sigs ((b.accrueHash sigs.moRepay).accrueMany hs)).may_have_repay
        = true ∧
    (MorphoEvents.from_bloom sigs
        ((b.accrueHash sigs.moSupplyCollateral).accrueMany hs)).may_have_supply_collateral
        = true ∧
    (MorphoEvents.from_bloom sigs
        ((b.accrueHash sigs.moWithdrawCollateral).accrueMany hs)).may_have_withdraw_collateral
        = true ∧
    (MorphoEvents.from_bloom sigs
        ((b.accrueHash sigs.moLiquidate).accrueMany hs)).may_have_liquidation = true ∧
    (MorphoEvents.from_bloom sigs
        ((b.accrueHash sigs.moCreateMarket).accrueMany hs)).may_have_create_market = true := by
  refine ⟨?_, ?_, ?_, ?_, ?_, ?_, ?_, ?_, ?_, ?_, ?_, ?_, ?_, ?_, ?_, ?_, ?_, ?_, ?_, ?_⟩ <;>
    exact Bloom.containsHash_inserted b hs _

/-! ## Canonical signature strings

The literal signature strings below are the ones the repository's unit
tests hash (`test_*_signature` in aave.rs, chainlink.rs, morpho.rs) and,
for UniV3 `Swap`, the string named by the specification. -/

/-- `SIGNATURE_HASH` as generated by the `sol!` macro: the hash of the
declaration's canonical signature string, for an arbitrary hash
function standing in for keccak256. -/
def signatureHash (keccak : String → Nat) (d : EventDecl) : Nat :=
  keccak d.canonicalSignature

/-- Canonical signature string of UniV3 `Swap`. -/
def sigStringSwap : String := "Swap(address,address,int256,int256,uint160,uint128,int24)"

/-- Canonical signature string of Aave `Supply`. -/
def sigStringAaveSupply : String := "Supply(address,address,address,uint256,uint16)"

/-- Canonical signature string of Aave `Withdraw`. -/
def sigStringAaveWithdraw : String := "Withdraw(address,address,address,uint256)"

/-- Canonical signature string of Aave `Borrow`. -/
def sigStringAaveBorrow : String := "Borrow(address,address,address,uint256,uint8,uint256,uint16)"

/-- Canonical signature string of Aave `Repay`. -/
def sigStringAaveRepay : String := "Repay(address,address,address,uint256,bool)"

/-- Canonical signature string of Aave `LiquidationCall`. -/
def sigStringAaveLiquidationCall : String :=
  "LiquidationCall(address,address,address,uint256,uint256,address,bool)"

/-- Canonical signature string of Chainlink `AnswerUpdated`. -/
def sigStringAnswerUpdated : String := "AnswerUpdated(int256,uint256,uint256)"

/-- Canonical signature string of Chainlink `NewRound`. -/
def sigStringNewRound : String := "NewRound(uint256,address,uint256)"

/-- Canonical signature string of Morpho `Supply`. -/
def sigStringMorphoSupply : String := "Supply(bytes32,address,address,uint256,uint256)"

/-- Canonical signature string of Morpho `Withdraw`. -/
def sigStringMorphoWithdraw : String := "Withdraw(bytes32,address,address,address,uint256,uint256)"

/-- Canonical signature string of Morpho `Borrow`. -/
def sigStringMorphoBorrow : String := "Borrow(bytes32,address,address,address,uint256,uint256)"

/-- Canonical signature string of Morpho `Repay`. -/
def sigStringMorphoRepay : String := "Repay(bytes32,address,address,uint256,uint256)"

/-- Canonical signature string of Morpho `SupplyCollateral`. -/
def sigStringMorphoSupplyCollateral : String :=
  "SupplyCollateral(bytes32,address,address,uint256)"

/-- Canonical signature string of Morpho `WithdrawCollateral`. -/
def sigStringMorphoWithdrawCollateral : String :=
  "WithdrawCollateral(bytes32,address,address,address,uint256)"

/-- Canonical signature string of Morpho `Liquidate`. -/
def sigStringMorphoLiquidate : String :=
  "Liquidate(bytes32,address,address,uint256,uint256,uint256,uint256,uint256)"

/-- Canonical signature string of Morpho `CreateMarket`. -/
def sigStringMorphoCreateMarket : String :=
  "CreateMarket(bytes32,address,address,address,address,uint256)"

/-- C2. For every event kind with a decoder, the compiled-in signature
hash (keccak256 of the declaration's canonical signature, as generated by
the `sol!` macro) equals keccak256 of the canonical ABI signature string
`EventName(type1,type2,...)` over the component types with the `indexed`
keywords stripped — stated for an arbitrary hash function, so the content
is the equality of the signature strings themselves; the final conjunct
states that indexed-ness does not affect the canonical signature (any two
declarations with the same name and the same component types, regardless
of their indexed flags, have the same canonical signature). -/
theorem signature_hash_canonical (keccak : String → Nat) :
    signatureHash keccak univ3SwapDecl = keccak sigStringSwap ∧
    signatureHash keccak aaveSupplyDecl = keccak sigStringAaveSupply ∧
    signatureHash keccak aaveWithdrawDecl = keccak sigStringAaveWithdraw ∧
    signatureHash keccak aaveBorrowDecl = keccak sigStringAaveBorrow ∧
    signatureHash keccak aaveRepayDecl = keccak sigStringAaveRepay ∧
    signatureHash keccak aaveLiquidationCallDecl = keccak sigStringAaveLiquidationCall ∧
    signatureHash keccak chainlinkAnswerUpdatedDecl = keccak sigStringAnswerUpdated ∧
    signatureHash keccak chainlinkNewRoundDecl = keccak sigStringNewRound ∧
    signatureHash keccak morphoSupplyDecl = keccak sigStringMorphoSupply ∧
    signatureHash keccak morphoWithdrawDecl = keccak sigStringMorphoWithdraw ∧
    signatureHash keccak morphoBorrowDecl = keccak sigStringMorphoBorrow ∧
    signatureHash keccak morphoRepayDecl = keccak sigStringMorphoRepay ∧
    signatureHash keccak morphoSupplyCollateralDecl = keccak sigStringMorphoSupplyCollateral ∧
    signatureHash keccak morphoWithdrawCollateralDecl =
      keccak sigStringMorphoWithdrawCollateral ∧
    signatureHash keccak morphoLiquidateDecl = keccak sigStringMorphoLiquidate ∧
    signatureHash keccak morphoCreateMarketDecl = keccak sigStringMorphoCreateMarket ∧
    (∀ d d2 : EventDecl, d.name = d2.name →
      d.params.map Prod.fst = d2.params.map Prod.fst →
      d.canonicalSignature = d2.canonicalSignature) := by
  refine ⟨congrArg keccak (by decide), congrArg keccak (by decide),
    congrArg keccak (by decide), congrArg keccak (by decide), congrArg keccak (by decide),
    congrArg keccak (by decide), congrArg keccak (by decide), congrArg keccak (by decide),
    congrArg keccak (by decide), congrArg keccak (by decide), congrArg keccak (by decide),
    congrArg keccak (by decide), congrArg keccak (by decide), congrArg keccak (by decide),
    congrArg keccak (by decide), congrArg keccak (by decide), ?_⟩
  intro d d2 hname hty
  have hmap : d.params.map (fun p => p.1.canonicalString) =
      d2.params.map (fun p => p.1.canonicalString) := by
    have h1 : d.params.map (fun p => p.1.canonicalString) =
        (d.params.map Prod.fst).map AbiType.canonicalString := by
      rw [List.map_map]; rfl
    have h2 : d2.params.map (fun p => p.1.canonicalString) =
        (d2.params.map Prod.fst).map AbiType.canonicalString := by
      rw [List.map_map]; rfl
    rw [h1, h2, hty]
  simp only [EventDecl.canonicalSignature, hname, hmap]

/-- Witness for C2 at a concrete hash function and a concrete pair of
declarations differing only in their indexed flags. -/
theorem signature_hash_canonical_witness :
    signatureHash String.length univ3SwapDecl = String.length sigStringSwap ∧
    EventDecl.canonicalSignature
        { name := univ3SwapDecl.name
        , params := univ3SwapDecl.params.map (fun p => (p.1, false)) } =
      univ3SwapDecl.canonicalSignature := by
  have h := signature_hash_canonical String.length
  refine ⟨h.1, ?_⟩
  exact h.2.2.2.2.2.2.2.2.2.2.2.2.2.2.2.2 _ _ (by decide) (by decide)

/-! ## Topic-arity rejection -/

lemma swap_from_log_len_none (sigs : Sigs) (log : ReceiptLog)
    (h : log.topics.length < 3 ∨ 4 < log.topics.length) :
    ParsedSwap.from_log sigs log = none := by
  unfold ParsedSwap.from_log ParsedSwap.fromLogP PanicOr.run
  by_cases hh : log.topics.head? = some sigs.u3Swap
  · simp only [hh, ne_eq, not_true_eq_false, if_false]
    rcases h with hlt | hgt
    · have hld : logDataValid log.topics = true := by
        simp only [logDataValid, decide_eq_true_eq]; omega
      simp only [hld, Bool.not_true, Bool.false_eq_true, if_false]
      rcases hl : log.topics with _ | ⟨t0, rest⟩
      · rw [hl] at hh; simp at hh
      · have hr : ¬ (univ3SwapDecl.spec sigs.u3Swap).idxCount ≤ rest.length := by
          have : (univ3SwapDecl.spec sigs.u3Swap).idxCount = 2 := rfl
          rw [hl] at hlt
          simp only [List.length_cons] at hlt
          omega
        simp [decodeRawLog, decodeTopics, hl, hr]
    · have hld : logDataValid log.topics = false := by
        simp only [logDataValid, decide_eq_false_iff_not]; omega
      simp [hld]
  · simp [hh]

/-- C3 (amended). For every decoder with an explicit topic-count check —
all five Aave kinds, all eight Morpho kinds and both Chainlink kinds — a
log whose topic count differs from the kind's expected arity is rejected
outright (regardless of `topics[0]` and of the data payload). For
`ParsedSwap::from_log`, which performs no explicit topic-count check,
rejection holds for every wrong topic count except exactly four topics:
fewer than the expected three topics makes the underlying topic decoding
fail, and more than four topics makes `LogData::new` fail, but a 4-topic
log can decode (see the counterexample) because alloy's topic decoding
ignores the extra topic. -/
theorem topic_arity_mismatch_rejected (sigs : Sigs) (log : ReceiptLog) :
    (log.topics.length ≠ 4 → ParsedSupply.try_from_log sigs log = none) ∧
    (log.topics.length ≠ 4 → ParsedWithdraw.try_from_log sigs log = none) ∧
    (log.topics.length ≠ 4 → ParsedBorrow.try_from_log sigs log = none) ∧
    (log.topics.length ≠ 4 → ParsedRepay.try_from_log sigs log = none) ∧
    (log.topics.length ≠ 4 → ParsedLiquidation.try_from_log sigs log = none) ∧
    (log.topics.length ≠ 4 → ParsedMorphoSupply.try_from_log sigs log = none) ∧
    (log.topics.length ≠ 4 → ParsedMorphoWithdraw.try_from_log sigs log = none) ∧
    (log.topics.length ≠ 4 → ParsedMorphoBorrow.try_from_log sigs log = none) ∧
    (log.topics.length ≠ 4 → ParsedMorphoRepay.try_from_log sigs log = none) ∧
    (log.topics.length ≠ 4 → ParsedMorphoSupplyCollateral.try_from_log sigs log = none) ∧
    (log.topics.length ≠ 4 → ParsedMorphoWithdrawCollateral.try_from_log sigs log = none) ∧
    (log.topics.length ≠ 4 → ParsedMorphoLiquidation.try_from_log sigs log = none) ∧
    (log.topics.length ≠ 3 → ParsedAnswerUpdated.try_from_log sigs log = none) ∧
    (log.topics.length ≠ 3 → ParsedNewRound.try_from_log sigs log = none) ∧
    (log.topics.length ≠ 2 → ParsedMorphoCreateMarket.try_from_log sigs log = none) ∧
    (log.topics.length < 3 ∨ 4 < log.topics.length → ParsedSwap.from_log sigs log = none) :=
  ⟨fun h => decodeWithCheck_run_len_ne h, fun h => decodeWithCheck_run_len_ne h,
   fun h => decodeWithCheck_run_len_ne h, fun h => decodeWithCheck_run_len_ne h,
   fun h => decodeWithCheck_run_len_ne h, fun h => decodeWithCheck_run_len_ne h,
   fun h => decodeWithCheck_run_len_ne h, fun h => decodeWithCheck_run_len_ne h,
   fun h => decodeWithCheck_run_len_ne h, fun h => decodeWithCheck_run_len_ne h,
   fun h => decodeWithCheck_run_len_ne h, fun h => decodeWithCheck_run_len_ne h,
   fun h => decodeWithCheck_run_len_ne h, fun h => decodeWithCheck_run_len_ne h,
   fun h => decodeWithCheck_run_len_ne h, fun h => swap_from_log_len_none sigs log h⟩

/-- A signature table with every hash zero, for concrete evaluations. -/
def sigsZero : Sigs :=
  ⟨0, 0, 0, 0, 0, 0, 0, 0, 0, 0, 0, 0, 0, 0, 0, 0, 0, 0, 0, 0⟩

/-- A log carrying the `Swap` signature topic plus three further topics —
one more than the event's three-topic arity — and a clean 5-word data
payload. -/
def cexSwapLog : ReceiptLog :=
  { address := 0, data := List.replicate 160 0, topics := [0, 0, 0, 0] }

/-- A log with no topics at all. -/
def emptyTopicsLog : ReceiptLog := { address := 0, data := [], topics := [] }

set_option maxRecDepth 100000 in
/-- C3 counterexample. A log whose `topics[0]` equals the `Swap` signature
hash but which has four topics — not the expected arity of three (two
indexed parameters plus the signature topic) — is nevertheless decoded
by `ParsedSwap::from_log`, because no explicit topic-count check is
performed, `LogData::new` accepts up to four topics, and the topic
decoder ignores the extra topic. -/
theorem swap_extra_topic_accepted_counterexample :
    cexSwapLog.topics.head? = some sigsZero.u3Swap ∧
    cexSwapLog.topics.length ≠ univ3SwapDecl.expectedTopicCount ∧
    (ParsedSwap.from_log sigsZero cexSwapLog).isSome = true := by decide

/-- Witness for the amended C3 at a concrete log with zero topics. -/
theorem topic_arity_mismatch_rejected_witness :
    ParsedSupply.try_from_log sigsZero emptyTopicsLog = none ∧
    ParsedWithdraw.try_from_log sigsZero emptyTopicsLog = none ∧
    ParsedBorrow.try_from_log sigsZero emptyTopicsLog = none ∧
    ParsedRepay.try_from_log sigsZero emptyTopicsLog = none ∧
    ParsedLiquidation.try_from_log sigsZero emptyTopicsLog = none ∧
    ParsedMorphoSupply.try_from_log sigsZero emptyTopicsLog = none ∧
    ParsedMorphoWithdraw.try_from_log sigsZero emptyTopicsLog = none ∧
    ParsedMorphoBorrow.try_from_log sigsZero emptyTopicsLog = none ∧
    ParsedMorphoRepay.try_from_log sigsZero emptyTopicsLog = none ∧
    ParsedMorphoSupplyCollateral.try_from_log sigsZero emptyTopicsLog = none ∧
    ParsedMorphoWithdrawCollateral.try_from_log sigsZero emptyTopicsLog = none ∧
    ParsedMorphoLiquidation.try_from_log sigsZero emptyTopicsLog = none ∧
    ParsedAnswerUpdated.try_from_log sigsZero emptyTopicsLog = none ∧
    ParsedNewRound.try_from_log sigsZero emptyTopicsLog = none ∧
    ParsedMorphoCreateMarket.try_from_log sigsZero emptyTopicsLog = none ∧
    ParsedSwap.from_log sigsZero emptyTopicsLog = none := by
  obtain ⟨c1, c2, c3, c4, c5, c6, c7, c8, c9, c10, c11, c12, c13, c14, c15, c16⟩ :=
    topic_arity_mismatch_rejected sigsZero emptyTopicsLog
  exact ⟨c1 (by decide), c2 (by decide), c3 (by decide), c4 (by decide), c5 (by decide),
    c6 (by decide), c7 (by decide), c8 (by decide), c9 (by decide), c10 (by decide),
    c11 (by decide), c12 (by decide), c13 (by decide), c14 (by decide), c15 (by decide),
    c16 (Or.inl (by decide))⟩

/-! ## Fail-open prefilter for receipts without a bloom -/

/-- C4. A receipt whose bloom filter is absent is treated as possibly
containing every tracked event kind: `may_have_swap` and
`may_have_answer_updated` return `true`, and consequently every event
decoded from that receipt's logs appears in the output of
`extract_swaps` / `extract_answer_updates` — the receipt is passed to
the decode step rather than skipped (fail open, never fail closed). -/
theorem missing_bloom_fail_open (sigs : Sigs) (md : FlashblockMetadata) (k : String)
    (r : FlashblockReceipt) (hmem : (k, r) ∈ md.receipts)
    (hb : r.inner.logs_bloom = none) :
    r.may_have_swap sigs = true ∧ r.may_have_answer_updated sigs = true ∧
    (∀ s ∈ ParsedSwap.extract_all sigs r.logs, s ∈ md.extract_swaps sigs) ∧
    (∀ u ∈ ParsedAnswerUpdated.extract_all sigs r.logs,
      u ∈ md.extract_answer_updates sigs) := by
  have hswap : r.may_have_swap sigs = true := by
    unfold FlashblockReceipt.may_have_swap; rw [hb]
  have hans : r.may_have_answer_updated sigs = true := by
    unfold FlashblockReceipt.may_have_answer_updated; rw [hb]
  refine ⟨hswap, hans, ?_, ?_⟩
  · intro s hs
    unfold FlashblockMetadata.extract_swaps
    refine List.mem_flatMap.mpr ⟨r, ?_, hs⟩
    exact List.mem_filter.mpr ⟨List.mem_map_of_mem Prod.snd hmem, hswap⟩
  · intro u hu
    unfold FlashblockMetadata.extract_answer_updates
    refine List.mem_flatMap.mpr ⟨r, ?_, hu⟩
    exact List.mem_filter.mpr ⟨List.mem_map_of_mem Prod.snd hmem, hans⟩

/-- A signature table with distinct `Swap` and `AnswerUpdated` hashes. -/
def sigsW : Sigs :=
  ⟨0, 0, 0, 1, 0, 0, 0, 0, 0, 0, 2, 0, 0, 0, 0, 0, 0, 0, 0, 0⟩

/-- A well-formed `Swap` log under `sigsW`: the signature topic, two
indexed topics, and a clean 5-word data payload. -/
def swapLogW : ReceiptLog :=
  { address := 0, data := List.replicate 160 0, topics := [1, 0, 0] }

/-- A well-formed `AnswerUpdated` log under `sigsW`. -/
def answerLogW : ReceiptLog :=
  { address := 0, data := List.replicate 32 0, topics := [2, 0, 0] }

/-- A receipt with no bloom filter holding both logs. -/
def rcptW : FlashblockReceipt :=
  .legacy { logs := [swapLogW, answerLogW], logs_bloom := none, status := none
          , cumulative_gas_used := none }

/-- Receipt key of `rcptW` in the metadata map. -/
def txKey : String := "0xdeadbeef"

/-- Metadata holding the single receipt `rcptW`. -/
def mdW : FlashblockMetadata :=
  { receipts := [(txKey, rcptW)], new_account_balances := [], block_number := 42 }

/-- Payload id of the concrete flashblock. -/
def payloadIdW : String := "fb-0"

/-- A flashblock carrying `mdW`. -/
def fbW : Flashblock := { payload_id := payloadIdW, index := 0, metadata := some mdW }

/-- The swap decoded from `swapLogW`. -/
def swapW : ParsedSwap :=
  { pool := 0, sender := 0, recipient := 0, amount0 := 0, amount1 := 0
  , sqrt_price_x96 := 0, liquidity := 0, tick := 0 }

/-- The answer update decoded from `answerLogW`. -/
def answerW : ParsedAnswerUpdated :=
  { feed := 0, answer := 0, round_id := 0, updated_at := 0 }

set_option maxRecDepth 100000 in
/-- Witness for C4 at the concrete bloomless receipt `rcptW`. -/
theorem missing_bloom_fail_open_witness :
    rcptW.may_have_swap sigsW = true ∧ rcptW.may_have_answer_updated sigsW = true ∧
    swapW ∈ mdW.extract_swaps sigsW ∧ answerW ∈ mdW.extract_answer_updates sigsW := by
  obtain ⟨h1, h2, h3, h4⟩ := missing_bloom_fail_open sigsW mdW txKey rcptW (by decide) rfl
  exact ⟨h1, h2, h3 swapW (by decide), h4 answerW (by decide)⟩

/-! ## Parallel dispatch publishes every protocol's events -/

/-- C5. For a flashblock whose receipts all pass the bloom pre-check for
both tracked kinds (bloom bits set, or bloom absent) and whose logs
contain exactly one decodable `Swap` log and exactly one decodable
`AnswerUpdated` log, every sink trace `process_all_protocols` can produce
— any interleaving of the two concurrent handlers' sends — contains
exactly one envelope labeled `"UniV3_swap"` and exactly one labeled
`"Chainlink_answer_updated"`. -/
theorem dispatch_publishes_both_protocols (sigs : Sigs) (md : FlashblockMetadata)
    (fb : Flashblock) (out : List Envelope)
    (hmd : fb.metadata = some md)
    (hopen : ∀ r ∈ md.receipts.map Prod.snd,
      r.may_have_swap sigs = true ∧ r.may_have_answer_updated sigs = true)
    (hswap : ((md.receipts.map Prod.snd).flatMap FlashblockReceipt.logs).countP
      (fun log => (ParsedSwap.from_log sigs log).isSome) = 1)
    (hans : ((md.receipts.map Prod.snd).flatMap FlashblockReceipt.logs).countP
      (fun log => (ParsedAnswerUpdated.try_from_log sigs log).isSome) = 1)
    (hrun : ProcessAllProtocols sigs fb out) :
    out.countP (fun e => e.1 == swapLabel) = 1 ∧
    out.countP (fun e => e.1 == answerUpdatedLabel) = 1 := by
  have hfilterS : (md.receipts.map Prod.snd).filter (fun r => r.may_have_swap sigs) =
      md.receipts.map Prod.snd :=
    List.filter_eq_self.mpr (fun r hr => (hopen r hr).1)
  have hfilterA : (md.receipts.map Prod.snd).filter
      (fun r => r.may_have_answer_updated sigs) = md.receipts.map Prod.snd :=
    List.filter_eq_self.mpr (fun r hr => (hopen r hr).2)
  have hlenS : (fb.extract_swaps sigs).length = 1 := by
    simp only [Flashblock.extract_swaps, hmd, FlashblockMetadata.extract_swaps, hfilterS]
    exact (length_flatMap_filterMap FlashblockReceipt.logs
      (ParsedSwap.from_log sigs) (md.receipts.map Prod.snd)).trans hswap
  have hlenA : (fb.extract_answer_updates sigs).length = 1 := by
    simp only [Flashblock.extract_answer_updates, hmd,
      FlashblockMetadata.extract_answer_updates, hfilterA]
    exact (length_flatMap_filterMap FlashblockReceipt.logs
      (ParsedAnswerUpdated.try_from_log sigs) (md.receipts.map Prod.snd)).trans hans
  have hcS : (UniV3Handler.out sigs fb).countP (fun e => e.1 == swapLabel) =
      (fb.extract_swaps sigs).length := by
    unfold UniV3Handler.out
    rw [List.countP_map]
    simp [Function.comp]
  have hcS0 : (ChainlinkHandler.out sigs fb).countP (fun e => e.1 == swapLabel) = 0 := by
    unfold ChainlinkHandler.out
    rw [List.countP_map]
    have hne : (answerUpdatedLabel == swapLabel) = false := by decide
    simp [Function.comp, hne]
  have hcA : (ChainlinkHandler.out sigs fb).countP (fun e => e.1 == answerUpdatedLabel) =
      (fb.extract_answer_updates sigs).length := by
    unfold ChainlinkHandler.out
    rw [List.countP_map]
    simp [Function.comp]
  have hcA0 : (UniV3Handler.out sigs fb).countP (fun e => e.1 == answerUpdatedLabel) = 0 := by
    unfold UniV3Handler.out
    rw [List.countP_map]
    have hne : (swapLabel == answerUpdatedLabel) = false := by decide
    simp [Function.comp, hne]
  constructor
  · rw [Interleave.countP_eq (fun e => e.1 == swapLabel) hrun, hcS, hcS0, hlenS]
  · rw [Interleave.countP_eq (fun e => e.1 == answerUpdatedLabel) hrun, hcA0, hcA, hlenA]

set_option maxRecDepth 100000 in
/-- Witness for C5 at the concrete flashblock `fbW` (one swap log, one
answer-updated log, receipt without a bloom) and the interleaving that
runs the UniV3 handler first. -/
theorem dispatch_publishes_both_protocols_witness :
    (UniV3Handler.out sigsW fbW ++ ChainlinkHandler.out sigsW fbW).countP
      (fun e => e.1 == swapLabel) = 1 ∧
    (UniV3Handler.out sigsW fbW ++ ChainlinkHandler.out sigsW fbW).countP
      (fun e => e.1 == answerUpdatedLabel) = 1 :=
  dispatch_publishes_both_protocols sigsW mdW fbW _ rfl (by decide) (by decide) (by decide)
    (interleave_append _ _)

/-! ## Bundle counting invariant -/

/-- C6. For every protocol event bundle — arbitrarily constructed,
produced by `extract_all`, or the default empty bundle — `total_count`
equals the sum of the lengths of the constituent per-kind sequences. -/
theorem bundle_total_count_eq_sum (a : AaveUserUpdates) (m : MorphoUpdates)
    (sigs : Sigs) (logs : List ReceiptLog) :
    a.total_count = a.supplies.length + a.withdraws.length + a.borrows.length +
      a.repays.length + a.liquidations.length ∧
    m.total_count = m.supplies.length + m.withdraws.length + m.borrows.length +
      m.repays.length + m.supply_collaterals.length + m.withdraw_collaterals.length +
      m.liquidations.length + m.create_markets.length ∧
    (AaveUserUpdates.extract_all sigs logs).total_count =
      (ParsedSupply.extract_all sigs logs).length +
      (ParsedWithdraw.extract_all sigs logs).length +
      (ParsedBorrow.extract_all sigs logs).length +
      (ParsedRepay.extract_all sigs logs).length +
      (ParsedLiquidation.extract_all sigs logs).length ∧
    (MorphoUpdates.extract_all sigs logs).total_count =
      (ParsedMorphoSupply.extract_all sigs logs).length +
      (ParsedMorphoWithdraw.extract_all sigs logs).length +
      (ParsedMorphoBorrow.extract_all sigs logs).length +
      (ParsedMorphoRepay.extract_all sigs logs).length +
      (ParsedMorphoSupplyCollateral.extract_all sigs logs).length +
      (ParsedMorphoWithdrawCollateral.extract_all sigs logs).length +
      (ParsedMorphoLiquidation.extract_all sigs logs).length +
      (ParsedMorphoCreateMarket.extract_all sigs logs).length ∧
    AaveUserUpdates.default.total_count = 0 ∧
    MorphoUpdates.default.total_count = 0 :=
  ⟨rfl, rfl, rfl, rfl, rfl, rfl⟩

/-! ## Pool price -/

/-- C7 (amended). For every `PoolState` derived from a decoded swap whose
`sqrt_price_x96` fits in 128 bits, `price_0_in_1` returns
`(sqrt_price_x96 / 2^96)^2` (in the exact-arithmetic idealization of the
`f64` computation). The restriction to 128 bits is forced by the
counterexample below: the Rust body converts the 160-bit value with the
checked `U160::to::<u128>()`, which panics for larger values. -/
theorem price_0_in_1_formula (s : ParsedSwap) (h : s.sqrt_price_x96 < 2 ^ 128) :
    s.pool_state.price_0_in_1 = some (((s.sqrt_price_x96 : ℚ) / 2 ^ 96) ^ 2) := by
  unfold ParsedSwap.pool_state PoolState.price_0_in_1
  rw [if_pos h]

/-- A decoded swap whose `sqrt_price_x96` is the 160-bit value `2^128`. -/
def cexSwapBig : ParsedSwap :=
  { pool := 0, sender := 0, recipient := 0, amount0 := 0, amount1 := 0
  , sqrt_price_x96 := 2 ^ 128, liquidity := 0, tick := 0 }

/-- C7 counterexample. At the 160-bit value `sqrt_price_x96 = 2^128` the
checked `U160::to::<u128>()` conversion inside `price_0_in_1` panics, so
no price is returned at all — the claim fails for this 160-bit input. -/
theorem price_0_in_1_panics_counterexample :
    cexSwapBig.sqrt_price_x96 < 2 ^ 160 ∧
    cexSwapBig.pool_state.price_0_in_1 = none := by
  refine ⟨by norm_num [cexSwapBig], ?_⟩
  norm_num [cexSwapBig, ParsedSwap.pool_state, PoolState.price_0_in_1]

/-- A decoded swap at the price-1 point `sqrt_price_x96 = 2^96`. -/
def swapUnitPrice : ParsedSwap :=
  { pool := 0, sender := 0, recipient := 0, amount0 := 0, amount1 := 0
  , sqrt_price_x96 := 2 ^ 96, liquidity := 0, tick := 0 }

/-- Witness for the amended C7 at `sqrt_price_x96 = 2^96`. -/
theorem price_0_in_1_formula_witness :
    swapUnitPrice.sqrt_price_x96 < 2 ^ 128 ∧
    swapUnitPrice.pool_state.price_0_in_1 =
      some (((swapUnitPrice.sqrt_price_x96 : ℚ) / 2 ^ 96) ^ 2) :=
  ⟨by norm_num [swapUnitPrice], price_0_in_1_formula swapUnitPrice (by norm_num [swapUnitPrice])⟩

/-! ## Sinks never fail on zero subscribers -/

/-- C8. For each sink variant and every payload whose serialization
succeeds, `send_envelope` and `send` return `Ok` with zero connected
subscribers (the print sink has none; the WebSocket and SSE sinks are
taken with a zero receiver count, where the broadcast-channel send
returns an error that both sinks deliberately map to `Ok`). -/
theorem send_zero_subscribers_ok (label j : String) :
    StreamOutput.print.subscribers = 0 ∧
    (StreamOutput.websocket 0).subscribers = 0 ∧
    (StreamOutput.sse 0).subscribers = 0 ∧
    StreamOutput.print.send_envelope (some j) = .ok () ∧
    (StreamOutput.websocket 0).send_envelope (some j) = .ok () ∧
    (StreamOutput.sse 0).send_envelope (some j) = .ok () ∧
    StreamOutput.print.send label (some j) = .ok () ∧
    (StreamOutput.websocket 0).send label (some j) = .ok () ∧
    (StreamOutput.sse 0).send label (some j) = .ok () :=
  ⟨rfl, rfl, rfl, rfl, rfl, rfl, rfl, rfl, rfl⟩

/-! ## SSE registry lifecycle -/

/-- C9 (code-bug exhibit). In the SSE sink there is a reachable connection
state in which the connection is still live but the client's registry
entry has already been removed: the cleanup task spawned by
`handle_request` removes the entry when its fixed 100 ms sleep elapses,
independently of the connection, contradicting the invariant that an
entry is never removed while its connection is live (and contradicting
the code's own comment that cleanup happens when connection handling is
done). -/
theorem sse_registry_entry_removed_while_live :
    ∃ s : SseConnState, SseReachable s ∧ s.live = true ∧ s.registered = false :=
  ⟨{ registered := false, live := true, cleanupFired := true },
    SseReachable.step SseReachable.init (SseStep.cleanup rfl), rfl, rfl⟩

/-! ## Decoder totality -/

/-- C10. Every per-kind decoder is a total, panic-free function of the raw
log: for every input — empty topic list, wrong-length topic list,
arbitrary data bytes — the panic-tracked embedding returns an ordinary
`Option` result (never the panic marker), because each slice access
`topics[0]` is guarded by the preceding exact length check (or replaced
by the `Option`-returning `first()` in `ParsedSwap::from_log`) and every
inner decode failure is mapped to `None`. -/
theorem decoders_total_no_panic (sigs : Sigs) (log : ReceiptLog) :
    (∃ o, ParsedSwap.fromLogP sigs log = .ok o) ∧
    (∃ o, ParsedSupply.tryFromLogP sigs log = .ok o) ∧
    (∃ o, ParsedWithdraw.tryFromLogP sigs log = .ok o) ∧
    (∃ o, ParsedBorrow.tryFromLogP sigs log = .ok o) ∧
    (∃ o, ParsedRepay.tryFromLogP sigs log = .ok o) ∧
    (∃ o, ParsedLiquidation.tryFromLogP sigs log = .ok o) ∧
    (∃ o, ParsedAnswerUpdated.tryFromLogP sigs log = .ok o) ∧
    (∃ o, ParsedNewRound.tryFromLogP sigs log = .ok o) ∧
    (∃ o, ParsedMorphoSupply.tryFromLogP sigs log = .ok o) ∧
    (∃ o, ParsedMorphoWithdraw.tryFromLogP sigs log = .ok o) ∧
    (∃ o, ParsedMorphoBorrow.tryFromLogP sigs log = .ok o) ∧
    (∃ o, ParsedMorphoRepay.tryFromLogP sigs log = .ok o) ∧
    (∃ o, ParsedMorphoSupplyCollateral.tryFromLogP sigs log = .ok o) ∧
    (∃ o, ParsedMorphoWithdrawCollateral.tryFromLogP sigs log = .ok o) ∧
    (∃ o, ParsedMorphoLiquidation.tryFromLogP sigs log = .ok o) ∧
    (∃ o, ParsedMorphoCreateMarket.tryFromLogP sigs log = .ok o) :=
  ⟨⟨_, rfl⟩,
   decodeWithCheck_no_panic 4 (by decide) _ _ log,
   decodeWithCheck_no_panic 4 (by decide) _ _ log,
   decodeWithCheck_no_panic 4 (by decide) _ _ log,
   decodeWithCheck_no_panic 4 (by decide) _ _ log,
   decodeWithCheck_no_panic 4 (by decide) _ _ log,
   decodeWithCheck_no_panic 3 (by decide) _ _ log,
   decodeWithCheck_no_panic 3 (by decide) _ _ log,
   decodeWithCheck_no_panic 4 (by decide) _ _ log,
   decodeWithCheck_no_panic 4 (by decide) _ _ log,
   decodeWithCheck_no_panic 4 (by decide) _ _ log,
   decodeWithCheck_no_panic 4 (by decide) _ _ log,
   decodeWithCheck_no_panic 4 (by decide) _ _ log,
   decodeWithCheck_no_panic 4 (by decide) _ _ log,
   decodeWithCheck_no_panic 4 (by decide) _ _ log,
   decodeWithCheck_no_panic 2 (by decide) _ _ log⟩
